import Mathlib

/-!
# Face-Mask-Detection: the capture / throttle / streaming state machines

A shallow embedding of the two React components of the repository,
`src/MaskDetection.jsx` (pull mode: grab a frame, throttle it, POST it) and
`src/Web.jsx` (push mode: a socket.io channel), followed by the properties
established about them.

Conventions of the embedding.

* `useState` cells and `useRef` cells of a component are the fields of one
  record (`Comp`, `Web.View`); a handler is a function on that record.
* Everything a handler does to the outside world (tracks stopped, canvas calls,
  the `fetch`, console output, socket traffic) is returned as a list of
  effects, oldest first.
* An `async` function is cut at each point where it waits (for the network,
  for `getUserMedia`, for `play()`): the part before the wait is one function,
  the part after it another one that receives the outcome of the wait together
  with the state *at that moment*. `Sys` and `step` put the parts together and
  let other events happen between.
* A handler reads a `useState` cell at its committed value; where the source
  makes a closure outlive a render (the socket effect of `Web.jsx`), the value
  the closure captured is a field of its own.
* `videoRef.current` is set by React, not by the component: after every event
  on a mounted component the render is committed (`render`), which attaches the
  `<video>` element exactly while `isStreaming` is true; teardown detaches it
  before the cleanup runs.
* Buttons are clicked only while enabled (`disabled=` in the JSX).
* JavaScript numbers are `Int` (frame counters and millisecond timestamps stay
  far below `2^53`, where the arithmetic of the source is exact); `%` is the
  truncating remainder `Int.tmod`.
-/

namespace MaskDetection

/-! ## Data -/

/-- A `data:` URL (an encoded image). -/
abbrev DataURL := String

/-- One entry of `data.detections`; the component never looks inside. -/
structure Detection where
  cls : Int
  confidencePct : Nat
deriving DecidableEq, Repr

/-- A `MediaStream` handed out by `getUserMedia`, with the ids of its tracks. -/
structure MediaStream where
  id : Nat
  tracks : List Nat
deriving DecidableEq, Repr

/-- The `<video>` element behind `videoRef.current`. -/
structure Video where
  srcObject : Option MediaStream
deriving DecidableEq, Repr

/-- A decimal literal `mantissa * 10 ^ exponent`, as written in the source. -/
structure Decimal where
  mantissa : Nat
  exponent : Int
deriving DecidableEq, Repr

/-- The parsed JSON body of a detector response (`data`).
`success` is the truthiness of `data.success`. -/
structure Body where
  success : Bool
  image : Option DataURL
  detections : Option (List Detection)
  error : Option String
deriving DecidableEq, Repr

/-- What the two awaits of `processImage` (`fetch`, `response.json()`) deliver. -/
inductive FetchOutcome where
  /-- `fetch` rejects (no connection, CORS, ...). -/
  | fetchRejected (msg : String)
  /-- `response.json()` rejects (the body is no JSON). -/
  | jsonRejected (ok : Bool) (msg : String)
  /-- A response with `response.ok = ok`; `data = none` is the JSON value `null`,
  on which a property access throws. -/
  | received (ok : Bool) (data : Option Body)
deriving DecidableEq, Repr

/-- Observable actions of the component on its environment. -/
inductive Effect where
  /-- `fetch('http://localhost:5000/webcam', POST, { image })`. -/
  | fetchPost (image : DataURL)
  | consoleError (tag : String) (msg : String)
  | getUserMedia
  | setSrcObject (stream : Option Nat)
  | play
  /-- `track.stop()` on track `track` of stream `stream`. -/
  | trackStop (stream track : Nat)
  | createCanvas (width height : Nat)
  | drawImage (width height : Nat)
  | toDataURL (mime : String) (quality : Decimal)
  | readAsDataURL (file : String)
deriving DecidableEq, Repr

/-- The state of one mounted `MaskDetection` component: its `useState` cells
and the `current` of its refs (lines 5-16). -/
structure Comp where
  selectedFile : Option String
  preview : Option String
  isLoading : Bool
  error : Option String
  isStreaming : Bool
  detectionResult : Option DataURL
  detectionStats : Option (List Detection)
  videoRef : Option Video
  streamRef : Option MediaStream
  processingRef : Bool
  frameCountRef : Int
  lastProcessedTimeRef : Int
deriving DecidableEq, Repr

/-- The state after the first render (the initial values of lines 5-16). -/
def Comp.initial : Comp :=
  { selectedFile := none, preview := none, isLoading := false, error := none,
    isStreaming := false, detectionResult := none, detectionStats := none,
    videoRef := none, streamRef := none, processingRef := false,
    frameCountRef := 0, lastProcessedTimeRef := 0 }

/-! ## Upload form -/

/-- `handleFileChange` (lines 18-27); `file` is `event.target.files[0]`. -/
def handleFileChange (c : Comp) (file : Option String) : Comp :=
  match file with
  | some f =>
    { c with selectedFile := some f, preview := some ("blob:" ++ f), error := none,
             detectionResult := none, detectionStats := none }
  | none => c

/-- `resetUpload` (lines 29-35). -/
def resetUpload (c : Comp) : Comp :=
  { c with selectedFile := none, preview := none, error := none,
           detectionResult := none, detectionStats := none }

/-! ## processImage (lines 37-75) -/

/-- The condition of the `if` at lines 41-42: the frame is dropped when it
evaluates to `true`. -/
def throttled (frameCount now lastProcessed : Int) : Bool :=
  frameCount.tmod 3 != 0 || decide (now - lastProcessed < 50)

/-- The outcome of the synchronous head of `processImage`. -/
inductive Submit where
  /-- `return null` at line 43: nothing was sent. -/
  | dropped
  /-- Line 46 ran and the `fetch` of line 48 was issued. -/
  | sent (c : Comp)
deriving DecidableEq, Repr

/-- `processImage` up to and including the call of `fetch` (lines 39-56);
`now` is the value of `Date.now()`. -/
def processImageSubmit (c : Comp) (now : Int) : Submit :=
  if throttled c.frameCountRef now c.lastProcessedTimeRef then .dropped
  else .sent { c with lastProcessedTimeRef := now }

/-- `data.error || 'Detection failed'`. -/
def errorOrDefault (e : Option String) : String :=
  match e with
  | some s => if s = "" then "Detection failed" else s
  | none => "Detection failed"

/-- The `try` block of `processImage` from the first `await` on (lines 48-70):
either it throws, or it stores the result and returns `data`. -/
def processImageTry (c : Comp) : FetchOutcome → Except String (Comp × Body)
  | .fetchRejected msg => .error msg
  | .jsonRejected _ msg => .error msg
  | .received _ none => .error "TypeError: data is null"
  | .received ok (some data) =>
    if !ok then .error (errorOrDefault data.error)
    else if data.success then
      .ok ({ c with detectionResult := data.image, detectionStats := data.detections }, data)
    else .error (errorOrDefault data.error)

/-- `processImage` from the first `await` on, with its `catch` (lines 48-74):
the new state, the value the promise resolves to (`none` is `null`) and the
effects. `c` is the state when the response arrives. -/
def processImageSettle (c : Comp) (o : FetchOutcome) : Comp × Option Body × List Effect :=
  match processImageTry c o with
  | .ok (c', data) => (c', some data, [])
  | .error msg => (c, none, [.consoleError "Error processing image:" msg])

/-- `processImage` run from call to settlement with nothing happening in
between: `now` is `Date.now()`, `o` the outcome of the request if one is made. -/
def processImage (c : Comp) (now : Int) (imageData : DataURL) (o : FetchOutcome) :
    Comp × Option Body × List Effect :=
  match processImageSubmit c now with
  | .dropped => (c, none, [])
  | .sent c1 =>
    let r := processImageSettle c1 o
    (r.1, r.2.1, .fetchPost imageData :: r.2.2)

/-! ## handleUpload (lines 77-90) -/

/-- The synchronous part of `handleUpload` (lines 78-84 and 89): without a
selected file it sets the error message and starts nothing; with one it sets
`isLoading` and starts a `FileReader`. -/
def handleUpload (c : Comp) : Comp × List Effect :=
  match c.selectedFile with
  | none => ({ c with error := some "Please select an image first" }, [])
  | some f => ({ c with isLoading := true }, [.readAsDataURL f])

/-- What `reader.onload` (lines 85-88) has done when its `await` is reached. -/
inductive Loaded where
  /-- `processImage` returned `null` at the gate and `setIsLoading(false)` ran. -/
  | finished (c : Comp)
  /-- A request is in flight; line 87 runs when it settles. -/
  | waiting (c : Comp)
deriving DecidableEq, Repr

/-- `reader.onload` up to the network wait; `now` is `Date.now()` inside
`processImage`. -/
def readerOnload (c : Comp) (now : Int) : Loaded :=
  match processImageSubmit c now with
  | .dropped => .finished { c with isLoading := false }
  | .sent c1 => .waiting c1

/-- `reader.onload` after the network wait: the rest of `processImage`, then
`setIsLoading(false)`. -/
def readerOnloadSettle (c : Comp) (o : FetchOutcome) : Comp × List Effect :=
  let r := processImageSettle c o
  ({ r.1 with isLoading := false }, r.2.2)

/-! ## startWebcam / stopWebcam (lines 92-132) -/

/-- `stopWebcam` (lines 121-132). -/
def stopWebcam (c : Comp) : Comp × List Effect :=
  match c.streamRef with
  | none => (c, [])
  | some stream =>
    let stops := stream.tracks.map (Effect.trackStop stream.id)
    match c.videoRef with
    | some v =>
      ({ c with videoRef := some { v with srcObject := none }, streamRef := none,
                isStreaming := false, detectionResult := none, detectionStats := none },
        stops ++ [.setSrcObject none])
    | none =>
      ({ c with streamRef := none, isStreaming := false, detectionResult := none,
                detectionStats := none },
        stops)

/-- The `catch` of `startWebcam` (lines 115-118). -/
def startWebcamCatch (c : Comp) (msg : String) : Comp :=
  { c with error := some ("Error accessing webcam: " ++ msg), isStreaming := false }

/-- `startWebcam` up to its first wait (lines 93-104): a stream still held is
released, then `getUserMedia` is called. -/
def startWebcam (c : Comp) : Comp × List Effect :=
  let r := if c.streamRef.isSome then stopWebcam c else (c, [])
  (r.1, r.2 ++ [.getUserMedia])

/-- `startWebcam` from the settlement of `getUserMedia` to its second wait
(lines 98-108). `c` is the state at that moment. The second component is the
stream whose `play()` is awaited, if the call got that far. -/
def startWebcamAcquired (c : Comp) (media : Except String MediaStream) :
    Comp × Option MediaStream × List Effect :=
  match media with
  | .error msg => (startWebcamCatch c msg, none, [])
  | .ok stream =>
    match c.videoRef with
    | none => (c, none, [])
    | some v =>
      ({ c with videoRef := some { v with srcObject := some stream } }, some stream,
        [.setSrcObject (some stream.id), .play])

/-- `startWebcam` from the settlement of `play()` on (lines 109-118). `c` is the
state at that moment, `stream` the stream acquired by this call. -/
def startWebcamPlayed (c : Comp) (stream : MediaStream) (played : Except String Unit) : Comp :=
  match played with
  | .error msg => startWebcamCatch c msg
  | .ok _ =>
    { c with streamRef := some stream, isStreaming := true, error := none,
             frameCountRef := 0, lastProcessedTimeRef := 0 }

/-- What React does to `videoRef` when it commits a render: the `<video>`
element exists exactly while `isStreaming` is true (lines 258-266), and
`videoRef.current` is that element or null. -/
def render (c : Comp) : Comp :=
  if c.isStreaming then { c with videoRef := some (c.videoRef.getD ⟨none⟩) }
  else { c with videoRef := none }

/-! ## processWebcamFrame (lines 134-164) -/

/-- `video.HAVE_ENOUGH_DATA`. -/
def HAVE_ENOUGH_DATA : Nat := 4

/-- The step of lines 140-152 that throws, if one does. -/
inductive CaptureFault where
  /-- `getContext('2d')` gave `null`, so `context.drawImage` throws. -/
  | noContext
  | drawImage
  | toDataURL
deriving DecidableEq, Repr

/-- What the browser supplies during one call of `processWebcamFrame`. -/
structure FrameEnv where
  readyState : Nat
  videoWidth : Nat
  videoHeight : Nat
  fault : Option CaptureFault
  /-- The string `canvas.toDataURL` returns. -/
  encoded : DataURL
  /-- The value of `Date.now()` inside `processImage`. -/
  now : Int
deriving DecidableEq, Repr

/-- The effects of lines 140-152 and whether line 152 was completed. -/
def capture (env : FrameEnv) : List Effect × Bool :=
  let canvas := Effect.createCanvas env.videoWidth env.videoHeight
  let draw := Effect.drawImage env.videoWidth env.videoHeight
  let enc := Effect.toDataURL "image/jpeg" ⟨8, -1⟩
  match env.fault with
  | some .noContext => ([canvas], false)
  | some .drawImage => ([canvas, draw], false)
  | some .toDataURL => ([canvas, draw, enc], false)
  | none => ([canvas, draw, enc], true)

/-- How far one call of `processWebcamFrame` gets before it either settles or
waits for the network. -/
inductive Frame where
  /-- The call has settled (every path except a request in flight). -/
  | settled (c : Comp)
  /-- `processImage` issued its request; line 158 runs when it settles. -/
  | waiting (c : Comp)
deriving DecidableEq, Repr

/-- `processWebcamFrame` up to the network wait. -/
def processWebcamFrame (c : Comp) (env : FrameEnv) : Frame × List Effect :=
  if c.videoRef.isNone || !c.isStreaming || c.processingRef then (.settled c, [])
  else
    let c1 := { c with frameCountRef := c.frameCountRef + 1 }
    let cap := capture env
    if !cap.2 then
      (.settled { c1 with processingRef := false },
        cap.1 ++ [.consoleError "Error processing webcam frame:" "capture"])
    else if env.readyState = HAVE_ENOUGH_DATA then
      let c2 := { c1 with processingRef := true }
      match processImageSubmit c2 env.now with
      | .dropped => (.settled { c2 with processingRef := false }, cap.1)
      | .sent c3 => (.waiting c3, cap.1 ++ [.fetchPost env.encoded])
    else (.settled c1, cap.1)

/-- `processWebcamFrame` after the network wait: the rest of `processImage`,
then line 158. -/
def processWebcamFrameSettle (c : Comp) (o : FetchOutcome) : Comp × List Effect :=
  let r := processImageSettle c o
  ({ r.1 with processingRef := false }, r.2.2)

/-! ## The component as an event system -/

/-- Who is waiting for a detection request. -/
inductive Caller where
  | webcam
  | upload
deriving DecidableEq, Repr

/-- The component together with what is outstanding around it. -/
structure Sys where
  comp : Comp
  /-- `false` once the component has been torn down. -/
  mounted : Bool
  /-- The detection requests in flight, oldest first. -/
  inflight : List Caller
  /-- Files being read by a `FileReader`. -/
  reading : Nat
  /-- Calls of `startWebcam` waiting for `getUserMedia`. -/
  acquiring : Nat
  /-- Calls of `startWebcam` waiting for `play()`, each with its stream. -/
  playing : List MediaStream
  /-- Everything done to the environment so far, oldest first. -/
  log : List Effect
deriving DecidableEq, Repr

/-- The component right after mounting. -/
def Sys.initial : Sys :=
  { comp := Comp.initial, mounted := true, inflight := [], reading := 0, acquiring := 0,
    playing := [], log := [] }

/-- What can happen to a component. -/
inductive Event where
  | handleFileChange (file : Option String)
  /-- A click on "Reset" (enabled while a file is selected, line 239). -/
  | resetUpload
  /-- A click on "Detect Masks" (enabled while a file is selected and
  `isLoading` is false, line 230). -/
  | handleUpload
  /-- A `FileReader` started by `handleUpload` fires `onload`. -/
  | readerLoaded (now : Int) (dataUrl : DataURL)
  /-- A call of `startWebcam`. -/
  | startWebcam
  /-- The `getUserMedia` of a waiting `startWebcam` settles. -/
  | mediaSettled (media : Except String MediaStream)
  /-- The `play()` of the `i`-th waiting `startWebcam` settles. -/
  | playSettled (i : Nat) (played : Except String Unit)
  /-- A call of `stopWebcam`. -/
  | stopWebcam
  /-- A tick of the capture loop (lines 169-174) calls `processWebcamFrame`. -/
  | tick (env : FrameEnv)
  /-- The `i`-th request in flight settles with outcome `o`. -/
  | settle (i : Nat) (o : FetchOutcome)
  /-- Teardown: React detaches the refs, then the cleanup of lines 187-191 runs. -/
  | unmount

/-- What an event runs, before React renders again. Clicks, calls and ticks
need a mounted component, and a click an enabled button; what was already
waiting (a file being read, `getUserMedia`, `play()`, a response) goes on
whether or not the component is still mounted. -/
def handle (s : Sys) : Event → Sys
  | .settle i o =>
    match s.inflight[i]? with
    | none => s
    | some .webcam =>
      let r := processWebcamFrameSettle s.comp o
      { s with comp := r.1, inflight := s.inflight.eraseIdx i, log := s.log ++ r.2 }
    | some .upload =>
      let r := readerOnloadSettle s.comp o
      { s with comp := r.1, inflight := s.inflight.eraseIdx i, log := s.log ++ r.2 }
  | .readerLoaded now dataUrl =>
    if s.reading = 0 then s
    else
      match readerOnload s.comp now with
      | .finished c => { s with comp := c, reading := s.reading - 1 }
      | .waiting c =>
        { s with comp := c, reading := s.reading - 1, inflight := s.inflight ++ [.upload],
                 log := s.log ++ [.fetchPost dataUrl] }
  | .mediaSettled media =>
    if s.acquiring = 0 then s
    else
      let r := startWebcamAcquired s.comp media
      { s with comp := r.1, acquiring := s.acquiring - 1,
               playing := s.playing ++ r.2.1.toList, log := s.log ++ r.2.2 }
  | .playSettled i played =>
    match s.playing[i]? with
    | none => s
    | some stream =>
      { s with comp := startWebcamPlayed s.comp stream played,
               playing := s.playing.eraseIdx i }
  | .handleFileChange file =>
    if s.mounted then { s with comp := handleFileChange s.comp file } else s
  | .resetUpload =>
    if s.mounted && s.comp.selectedFile.isSome then { s with comp := resetUpload s.comp }
    else s
  | .handleUpload =>
    if s.mounted && s.comp.selectedFile.isSome && !s.comp.isLoading then
      let r := handleUpload s.comp
      { s with comp := r.1, reading := s.reading + r.2.length, log := s.log ++ r.2 }
    else s
  | .startWebcam =>
    if s.mounted then
      let r := startWebcam s.comp
      { s with comp := r.1, acquiring := s.acquiring + 1, log := s.log ++ r.2 }
    else s
  | .stopWebcam =>
    if s.mounted then
      let r := stopWebcam s.comp
      { s with comp := r.1, log := s.log ++ r.2 }
    else s
  | .tick env =>
    if s.mounted then
      match processWebcamFrame s.comp env with
      | (.settled c, eff) => { s with comp := c, log := s.log ++ eff }
      | (.waiting c, eff) =>
        { s with comp := c, inflight := s.inflight ++ [.webcam], log := s.log ++ eff }
    else s
  | .unmount =>
    if s.mounted then
      let r := stopWebcam { s.comp with videoRef := none }
      { s with comp := r.1, mounted := false, log := s.log ++ r.2 }
    else s

/-- One event: what it runs, then, while the component is mounted, the commit
of the render. -/
def step (s : Sys) (e : Event) : Sys :=
  let s' := handle s e
  if s'.mounted then { s' with comp := render s'.comp } else s'

/-- A sequence of events, first to last. -/
def run (s : Sys) (es : List Event) : Sys :=
  es.foldl step s

/-- The number of times track `track` of stream `stream` was stopped. -/
def stopCount (log : List Effect) (stream track : Nat) : Nat :=
  log.count (.trackStop stream track)

/-- The requests issued so far. -/
def requests (log : List Effect) : List DataURL :=
  log.filterMap fun e => match e with
    | .fetchPost img => some img
    | _ => none

/-- The only outcome on which `processImage` reaches line 65: a 2xx response
whose body has a truthy `success`. -/
def FetchOutcome.succeeded : FetchOutcome → Bool
  | .received true (some data) => data.success
  | _ => false

/-- A state of `processWebcamFrame` past its entry guard, as a capture session
leaves it: the `<video>` element is attached and shows stream 0, which has one
track. -/
def Comp.running : Comp :=
  { Comp.initial with videoRef := some ⟨some ⟨0, [0]⟩⟩, streamRef := some ⟨0, [0]⟩,
                      isStreaming := true }

/-- A tick on which the video has no data yet (`readyState` is `HAVE_NOTHING`,
no dimensions known). -/
def FrameEnv.notReady : FrameEnv :=
  { readyState := 0, videoWidth := 0, videoHeight := 0, fault := none,
    encoded := "data:,", now := 1000 }

/-- A tick on which the video has data for the current and the next frame but
not enough to play through (`readyState` is `HAVE_FUTURE_DATA`). -/
def FrameEnv.futureData : FrameEnv :=
  { readyState := 3, videoWidth := 640, videoHeight := 480, fault := none,
    encoded := "data:image/jpeg;base64,AAAA", now := 1000 }

/-- A tick at time `now` on which the video has enough data. -/
def FrameEnv.ready (now : Int) : FrameEnv :=
  { readyState := 4, videoWidth := 640, videoHeight := 480, fault := none,
    encoded := "data:image/jpeg;base64,AAAA", now := now }

/-- `startWebcam` is called on the freshly mounted component, the camera is
granted, then the component is torn down. -/
def leakTrace : List Event :=
  [.startWebcam, .mediaSettled (.ok ⟨0, [0]⟩), .unmount]

/-- A file is selected, uploaded and read at time 1000; while the request is
pending the button is clicked again and a second `onload` is attempted. -/
def uploadTrace : List Event :=
  [.handleFileChange (some "face.png"), .handleUpload, .readerLoaded 1000 "data:face",
   .handleUpload, .readerLoaded 1100 "data:face"]

/-- A file is selected, uploaded at time 1000, and the detector answers that
it found no face. -/
def firstUploadTrace : List Event :=
  [.handleFileChange (some "face.png"), .handleUpload, .readerLoaded 1000 "data:face",
   .settle 0 (.received true (some ⟨false, none, none, some "no face detected"⟩))]

/-- The entry guard of `processWebcamFrame` (line 135) lets the call pass. -/
def pastGuard (c : Comp) : Bool :=
  c.videoRef.isSome && c.isStreaming && !c.processingRef

/-- What the flag `processingRef` guarantees in every state: the capture loop
has at most one request in flight, and none while the flag is down. -/
structure WebcamSingleFlight (s : Sys) : Prop where
  atMostOne : s.inflight.count .webcam ≤ 1
  flagged : s.comp.processingRef = false → Caller.webcam ∉ s.inflight

/-- No capture session is running and none can come up: the component is not
streaming, so no `<video>` element is attached, and no `startWebcam` waits for
`play()`. -/
structure Stopped (s : Sys) : Prop where
  notStreaming : s.comp.isStreaming = false
  noVideo : s.comp.videoRef = none
  notPlaying : s.playing = []

/-- What holds of the component in every state it reaches after mounting. -/
structure Idle (s : Sys) : Prop where
  stopped : Stopped s
  flagDown : s.comp.processingRef = false
  counter : s.comp.frameCountRef = 0
  noWebcam : Caller.webcam ∉ s.inflight
  /-- At most one upload is being read or waiting for its response. -/
  serial : s.inflight.length + s.reading ≤ 1
  /-- And `isLoading` is true while one is. -/
  loading : s.comp.isLoading = false → s.inflight = [] ∧ s.reading = 0

end MaskDetection

namespace Web

/-! ## The push-stream component (`src/Web.jsx`) -/

/-- The control signals the component emits. -/
inductive Signal where
  | start_stream
  | stop_stream
  | toggle_debug
  | toggle_coordinator
deriving DecidableEq, Repr

/-- What happens on the sockets of the component, as seen from outside. -/
inductive Wire where
  /-- Line 14 created socket `socket`; the `frame_update` handler registered on
  it (lines 20-28) is closed over `isStreaming = streaming`. -/
  | connect (socket : Nat) (streaming : Bool)
  | emit (socket : Nat) (signal : Signal)
  | disconnect (socket : Nat)
deriving DecidableEq, Repr

/-- The socket an entry is about. -/
def Wire.socket : Wire → Nat
  | .connect s _ => s
  | .emit s _ => s
  | .disconnect s => s

/-- The state of one `Web` component: the `useState` cells and `socketRef` of
lines 5-11, and what React keeps about the effect of lines 13-41. -/
structure View where
  isStreaming : Bool
  isDebugMode : Bool
  currentCoordinator : String
  detections : List MaskDetection.Detection
  lastFrame : Option String
  /-- The socket in `socketRef.current`; `none` before the first effect. -/
  socketRef : Option Nat
  /-- `false` once the component has been torn down. -/
  mounted : Bool
  /-- The value of `isStreaming` in the render whose effect is in place: what
  the closures of lines 20-40 see. -/
  effectStreaming : Bool
  /-- The number of sockets created so far. -/
  created : Nat
  /-- The socket traffic so far, oldest first. -/
  wire : List Wire
deriving DecidableEq, Repr

/-- The body of the effect (lines 14-33), run after a render. -/
def effectSetup (v : View) : View :=
  { v with socketRef := some v.created, created := v.created + 1,
           effectStreaming := v.isStreaming,
           wire := v.wire ++ [.connect v.created v.isStreaming] }

/-- The cleanup of the effect (lines 35-40). Its `isStreaming` is the one of the
render that set the effect up; `socketRef.current` is read when it runs. -/
def effectCleanup (v : View) : View :=
  match v.socketRef with
  | none => v
  | some s =>
    { v with wire := v.wire ++ (if v.effectStreaming then [.emit s .stop_stream] else [])
                           ++ [.disconnect s] }

/-- A render is committed: the dependency list `[isStreaming]` (line 41) makes
React run the old cleanup and then the effect again when the value differs from
the one the effect in place was set up with. -/
def commit (v : View) : View :=
  if v.isStreaming = v.effectStreaming then v else effectSetup (effectCleanup v)

/-- The first render and its effect. -/
def View.mount : View :=
  effectSetup
    { isStreaming := false, isDebugMode := true, currentCoordinator := "OpenCV",
      detections := [], lastFrame := none, socketRef := none, mounted := true,
      effectStreaming := false, created := 0, wire := [] }

/-- Adds an `emit` on `socketRef.current`. -/
def emit (v : View) (signal : Signal) : View :=
  match v.socketRef with
  | none => v
  | some s => { v with wire := v.wire ++ [.emit s signal] }

/-- `toggleStream` (lines 43-51), the handler alone. -/
def toggleStream (v : View) : View :=
  if v.isStreaming then emit { v with isStreaming := false } .stop_stream
  else { emit v .start_stream with isStreaming := true }

/-- `toggleDebug` (lines 53-56). -/
def toggleDebug (v : View) : View :=
  { emit v .toggle_debug with isDebugMode := !v.isDebugMode }

/-- `toggleCoordinator` (lines 58-61). -/
def toggleCoordinator (v : View) : View :=
  { emit v .toggle_coordinator with
    currentCoordinator := if v.currentCoordinator = "Main" then "OpenCV" else "Main" }

/-- The `frame_update` handler of the open socket (lines 20-28). -/
def frameUpdate (v : View) (frame : String) (detections : List MaskDetection.Detection) : View :=
  if v.effectStreaming then
    { v with lastFrame := some ("data:image/jpeg;base64," ++ frame), detections := detections }
  else v

/-- What can happen to a `Web` component. -/
inductive Event where
  | toggleStream
  | toggleDebug
  | toggleCoordinator
  /-- The server pushes a frame on the open socket. -/
  | frameUpdate (frame : String) (detections : List MaskDetection.Detection)
  /-- Teardown: React runs the cleanup of the effect in place. -/
  | unmount
deriving DecidableEq, Repr

/-- One event: the handler, then the commit of the render it caused. -/
def step (v : View) (e : Event) : View :=
  if !v.mounted then v
  else
    match e with
    | .toggleStream => commit (toggleStream v)
    | .toggleDebug => commit (toggleDebug v)
    | .toggleCoordinator => commit (toggleCoordinator v)
    | .frameUpdate frame detections => commit (frameUpdate v frame detections)
    | .unmount => { effectCleanup v with mounted := false }

/-- A sequence of events, first to last. -/
def run (v : View) (es : List Event) : View :=
  es.foldl step v

/-- What holds of every state the component reaches after mounting. -/
structure Inv (v : View) : Prop where
  /-- Every socket seen on the wire has been created. -/
  fresh : ∀ w ∈ v.wire, w.socket < v.created
  /-- While mounted, `socketRef.current` is the socket created last, its
  handlers were registered by the current render, and it is still connected. -/
  current : v.mounted = true → ∃ s, v.socketRef = some s ∧ s + 1 = v.created ∧
    v.effectStreaming = v.isStreaming ∧ Wire.connect s v.isStreaming ∈ v.wire ∧
    Wire.disconnect s ∉ v.wire
  /-- A socket is created by one render only. -/
  once : ∀ s b b', Wire.connect s b ∈ v.wire → Wire.connect s b' ∈ v.wire → b = b'
  /-- No socket created by a streaming render ever carried `start_stream`. -/
  unstarted : ∀ s, Wire.connect s true ∈ v.wire → Wire.emit s .start_stream ∉ v.wire

/-- On the wire `w`, every disconnect of socket `s` comes after a `stop_stream`
emitted on `s`. -/
def StopsFirst (w : List Wire) (s : Nat) : Prop :=
  ∀ pre post, w = pre ++ Wire.disconnect s :: post → Wire.emit s .stop_stream ∈ pre

end Web

/-! # Properties -/

namespace MaskDetection

/-- The remainder of JavaScript vanishes exactly when the mathematical one does. -/
theorem tmod_three_eq_zero_iff (f : Int) : f.tmod 3 = 0 ↔ f % 3 = 0 := by
  constructor
  · intro h
    exact Int.emod_eq_zero_of_dvd (Int.dvd_of_tmod_eq_zero h)
  · intro h
    exact Int.tmod_eq_zero_of_dvd (Int.dvd_of_emod_eq_zero h)

/-- The gate of lines 41-42 in closed form. -/
theorem throttled_eq_false_iff (f now last : Int) :
    throttled f now last = false ↔ f % 3 = 0 ∧ now - last ≥ 50 := by
  unfold throttled
  simp only [Bool.or_eq_false_iff, bne_eq_false_iff_eq, decide_eq_false_iff_not, not_lt,
    tmod_three_eq_zero_iff, ge_iff_le]

/-- The settlement of `processImage` issues no request of its own. -/
theorem requests_processImageSettle (c : Comp) (o : FetchOutcome) :
    requests (processImageSettle c o).2.2 = [] := by
  unfold processImageSettle
  cases h : processImageTry c o <;> simp [requests]

/-- The head of `processImage` in closed form. -/
theorem processImageSubmit_eq (c : Comp) (now : Int) :
    processImageSubmit c now =
      (if c.frameCountRef % 3 = 0 ∧ now - c.lastProcessedTimeRef ≥ 50
        then .sent { c with lastProcessedTimeRef := now } else .dropped) := by
  have hg := throttled_eq_false_iff c.frameCountRef now c.lastProcessedTimeRef
  by_cases h : c.frameCountRef % 3 = 0 ∧ now - c.lastProcessedTimeRef ≥ 50
  · simp only [processImageSubmit, hg.mpr h, if_pos h, Bool.false_eq_true, if_false]
  · have ht : throttled c.frameCountRef now c.lastProcessedTimeRef = true := by
      cases hx : throttled c.frameCountRef now c.lastProcessedTimeRef
      · exact absurd (hg.mp hx) h
      · rfl
    simp only [processImageSubmit, ht, if_neg h, if_true]

/-- C1. The throttle check at the head of `processImage` lets a frame through to
the `fetch` exactly when the frame counter is divisible by 3 and at least 50 ms
have passed since `lastProcessedTimeRef`; otherwise `processImage` returns
`null`, issues no request and changes nothing. Stated for all integer counters
and all pairs of timestamps (in particular those with `t0 ≤ t1`). -/
theorem processImage_gate (c : Comp) (now : Int) (imageData : DataURL) (o : FetchOutcome) :
    (throttled c.frameCountRef now c.lastProcessedTimeRef = false ↔
      c.frameCountRef % 3 = 0 ∧ now - c.lastProcessedTimeRef ≥ 50) ∧
    processImageSubmit c now =
      (if c.frameCountRef % 3 = 0 ∧ now - c.lastProcessedTimeRef ≥ 50
        then .sent { c with lastProcessedTimeRef := now } else .dropped) ∧
    requests (processImage c now imageData o).2.2 =
      (if c.frameCountRef % 3 = 0 ∧ now - c.lastProcessedTimeRef ≥ 50
        then [imageData] else []) ∧
    (if c.frameCountRef % 3 = 0 ∧ now - c.lastProcessedTimeRef ≥ 50 then
      (processImage c now imageData o).2.2.head? = some (.fetchPost imageData)
     else processImage c now imageData o = (c, none, [])) := by
  have hsub := processImageSubmit_eq c now
  refine ⟨throttled_eq_false_iff _ _ _, hsub, ?_, ?_⟩
  · have hr := requests_processImageSettle { c with lastProcessedTimeRef := now } o
    unfold processImage
    rw [hsub]
    by_cases h : c.frameCountRef % 3 = 0 ∧ now - c.lastProcessedTimeRef ≥ 50
    · simp only [if_pos h]
      simp only [requests] at hr
      simp only [requests, List.filterMap_cons, hr]
    · simp only [if_neg h]
      rfl
  · unfold processImage
    rw [hsub]
    by_cases h : c.frameCountRef % 3 = 0 ∧ now - c.lastProcessedTimeRef ≥ 50
    · simp only [if_pos h, List.head?_cons]
    · simp only [if_neg h]

/-- The scenario of C1: counters 0, 1, 2, 3, the submissions 60 ms apart. Frames
0 and 3 are sent, frames 1 and 2 are dropped. -/
theorem processImage_gate_witness :
    processImageSubmit { Comp.initial with frameCountRef := 0 } 60 =
      .sent { Comp.initial with frameCountRef := 0, lastProcessedTimeRef := 60 } ∧
    processImageSubmit { Comp.initial with frameCountRef := 1, lastProcessedTimeRef := 60 } 120 =
      .dropped ∧
    processImageSubmit { Comp.initial with frameCountRef := 2, lastProcessedTimeRef := 60 } 120 =
      .dropped ∧
    processImageSubmit { Comp.initial with frameCountRef := 3, lastProcessedTimeRef := 60 } 120 =
      .sent { Comp.initial with frameCountRef := 3, lastProcessedTimeRef := 120 } :=
  ⟨(processImage_gate { Comp.initial with frameCountRef := 0 } 60 "" (.fetchRejected "")).2.1.trans
      (by decide),
    (processImage_gate { Comp.initial with frameCountRef := 1, lastProcessedTimeRef := 60 } 120 ""
      (.fetchRejected "")).2.1.trans (by decide),
    (processImage_gate { Comp.initial with frameCountRef := 2, lastProcessedTimeRef := 60 } 120 ""
      (.fetchRejected "")).2.1.trans (by decide),
    (processImage_gate { Comp.initial with frameCountRef := 3, lastProcessedTimeRef := 60 } 120 ""
      (.fetchRejected "")).2.1.trans (by decide)⟩

/-- On anything but a successful response the settlement of `processImage`
returns `null` and hands back the state it found. -/
theorem processImageSettle_of_not_succeeded (c : Comp) (o : FetchOutcome)
    (h : o.succeeded = false) :
    (processImageSettle c o).1 = c ∧ (processImageSettle c o).2.1 = none := by
  unfold processImageSettle
  rcases o with msg | ⟨ok, msg⟩ | ⟨ok, data⟩
  · simp [processImageTry]
  · simp [processImageTry]
  · cases data with
    | none => simp [processImageTry]
    | some d =>
      cases ok
      · simp [processImageTry]
      · have hs : d.success = false := by simpa [FetchOutcome.succeeded] using h
        simp [processImageTry, hs]

/-- C3. For every prior state and every failed detection response (`fetch`
rejects, `response.json()` rejects, a non-2xx status whatever the body says, or
a body whose `success` is false) `processImage` returns `null` (the exception
is caught inside) and `detectionResult` and `detectionStats` keep their prior
values; the same holds when the response reaches a component that has moved on
in the meantime. -/
theorem processImage_failure_keeps_result (c : Comp) (now : Int) (imageData : DataURL)
    (o : FetchOutcome) (h : o.succeeded = false) :
    (processImage c now imageData o).2.1 = none ∧
    (processImage c now imageData o).1.detectionResult = c.detectionResult ∧
    (processImage c now imageData o).1.detectionStats = c.detectionStats ∧
    (processImageSettle c o).1 = c ∧ (processImageSettle c o).2.1 = none ∧
    (∀ msg, (FetchOutcome.fetchRejected msg).succeeded = false) ∧
    (∀ ok msg, (FetchOutcome.jsonRejected ok msg).succeeded = false) ∧
    (∀ data, (FetchOutcome.received false data).succeeded = false) ∧
    (∀ ok data, data.success = false → (FetchOutcome.received ok (some data)).succeeded = false) := by
  have hs := processImageSettle_of_not_succeeded
  refine ⟨?_, ?_, ?_, (hs c o h).1, (hs c o h).2, fun _ => rfl, fun _ _ => rfl, ?_, ?_⟩
  · unfold processImage
    cases hsub : processImageSubmit c now with
    | dropped => rfl
    | sent c1 => exact (hs c1 o h).2
  · unfold processImage
    cases hsub : processImageSubmit c now with
    | dropped => rfl
    | sent c1 =>
      simp only [(hs c1 o h).1]
      unfold processImageSubmit at hsub
      split at hsub
      · cases hsub
      · cases hsub; rfl
  · unfold processImage
    cases hsub : processImageSubmit c now with
    | dropped => rfl
    | sent c1 =>
      simp only [(hs c1 o h).1]
      unfold processImageSubmit at hsub
      split at hsub
      · cases hsub
      · cases hsub; rfl
  · intro data
    cases data <;> rfl
  · intro ok data hd
    cases ok
    · rfl
    · simpa [FetchOutcome.succeeded] using hd

/-- The scenario of C3: a prior result is on display and the detector answers
`success = false`, `error = "no face detected"`. -/
theorem processImage_failure_keeps_result_witness :
    (processImage { Comp.initial with detectionResult := some "data:old" } 60 "data:new"
      (.received true (some ⟨false, none, none, some "no face detected"⟩))).2.1 = none ∧
    (processImage { Comp.initial with detectionResult := some "data:old" } 60 "data:new"
      (.received true (some ⟨false, none, none, some "no face detected"⟩))).1.detectionResult
        = some "data:old" :=
  ⟨(processImage_failure_keeps_result { Comp.initial with detectionResult := some "data:old" }
      60 "data:new" (.received true (some ⟨false, none, none, some "no face detected"⟩)) rfl).1,
   (processImage_failure_keeps_result { Comp.initial with detectionResult := some "data:old" }
      60 "data:new" (.received true (some ⟨false, none, none, some "no face detected"⟩)) rfl).2.1⟩

/-- Committing a render changes `videoRef` only. -/
theorem render_fields (c : Comp) :
    (render c).isStreaming = c.isStreaming ∧ (render c).processingRef = c.processingRef ∧
    (render c).frameCountRef = c.frameCountRef ∧
    (render c).lastProcessedTimeRef = c.lastProcessedTimeRef ∧
    (render c).streamRef = c.streamRef ∧ (render c).isLoading = c.isLoading ∧
    (render c).error = c.error ∧ (render c).detectionResult = c.detectionResult ∧
    (render c).detectionStats = c.detectionStats ∧ (render c).selectedFile = c.selectedFile := by
  unfold render
  cases c.isStreaming <;> simp

/-- Committing the same render twice is committing it once. -/
theorem render_render (c : Comp) : render (render c) = render c := by
  unfold render
  cases h : c.isStreaming <;> simp [h]

/-- While the component does not stream, no `<video>` element is attached. -/
theorem render_of_not_streaming (c : Comp) (h : c.isStreaming = false) :
    render c = { c with videoRef := none } := by
  simp [render, h]

/-- The settlement of `processImage` never touches `processingRef`. -/
theorem processImageSettle_processingRef (c : Comp) (o : FetchOutcome) :
    (processImageSettle c o).1.processingRef = c.processingRef := by
  unfold processImageSettle
  rcases o with msg | ⟨ok, msg⟩ | ⟨ok, data⟩
  · simp [processImageTry]
  · simp [processImageTry]
  · cases data with
    | none => simp [processImageTry]
    | some d =>
      cases ok
      · simp [processImageTry]
      · cases hd : d.success <;> simp [processImageTry, hd]

/-- C4. A call of `processWebcamFrame` that starts with `processingRef` false
leaves it false when it settles. Either the call settles at once (streaming off,
no video element, an exception while capturing or encoding, device not ready,
throttle denial) with the flag false; or a request is in flight, the flag is
true, and whatever the response is (success, `success = false`, non-2xx,
transport failure) and whatever state the component is in by then, the
settlement puts the flag back to false. -/
theorem processWebcamFrame_clears_flag (c : Comp) (env : FrameEnv)
    (h : c.processingRef = false) :
    (∀ c', (processWebcamFrame c env).1 = .settled c' → c'.processingRef = false) ∧
    (∀ c', (processWebcamFrame c env).1 = .waiting c' →
      c'.processingRef = true ∧
      ∀ (later : Comp) (o : FetchOutcome),
        (processWebcamFrameSettle later o).1.processingRef = false) ∧
    (∀ (s : Sys) (i : Nat) (o : FetchOutcome), s.inflight[i]? = some .webcam →
      (step s (.settle i o)).comp.processingRef = false) := by
  refine ⟨?_, ?_, ?_⟩
  · intro c' hc
    cases hg : (c.videoRef.isNone || !c.isStreaming || c.processingRef)
    · cases hcap : (capture env).2
      · simp [processWebcamFrame, hg, hcap] at hc
        rw [← hc]
      · by_cases hr : env.readyState = HAVE_ENOUGH_DATA
        · cases hsub : processImageSubmit
              { c with frameCountRef := c.frameCountRef + 1, processingRef := true } env.now
          · simp [processWebcamFrame, hg, hcap, hr, hsub] at hc
            rw [← hc]
          · simp [processWebcamFrame, hg, hcap, hr, hsub] at hc
        · simp [processWebcamFrame, hg, hcap, hr] at hc
          rw [← hc]
          exact h
    · simp [processWebcamFrame, hg] at hc
      rw [← hc]
      exact h
  · intro c' hc
    refine ⟨?_, fun later o => rfl⟩
    cases hg : (c.videoRef.isNone || !c.isStreaming || c.processingRef)
    · cases hcap : (capture env).2
      · simp [processWebcamFrame, hg, hcap] at hc
      · by_cases hr : env.readyState = HAVE_ENOUGH_DATA
        · cases hsub : processImageSubmit
              { c with frameCountRef := c.frameCountRef + 1, processingRef := true } env.now
          · simp [processWebcamFrame, hg, hcap, hr, hsub] at hc
          · simp [processWebcamFrame, hg, hcap, hr, hsub] at hc
            rw [← hc]
            unfold processImageSubmit at hsub
            split at hsub
            · cases hsub
            · cases hsub; rfl
        · simp [processWebcamFrame, hg, hcap, hr] at hc
    · simp [processWebcamFrame, hg] at hc
  · intro s i o hi
    have hh : (handle s (.settle i o)).comp.processingRef = false := by
      simp only [handle, hi]
      rfl
    unfold step
    simp only
    split
    · exact (render_fields _).2.1.trans hh
    · exact hh

/-- C4 on two exit paths of a running session: a tick on which the device is
not ready settles at once with the flag false, and so does a ready tick that
the throttle turns down. -/
theorem processWebcamFrame_clears_flag_witness :
    (processWebcamFrame Comp.running FrameEnv.notReady).1 =
      .settled { Comp.running with frameCountRef := 1 } ∧
    ({ Comp.running with frameCountRef := 1 } : Comp).processingRef = false ∧
    (processWebcamFrame Comp.running (.ready 1000)).1 =
      .settled { Comp.running with frameCountRef := 1 } :=
  ⟨by decide,
   (processWebcamFrame_clears_flag Comp.running FrameEnv.notReady rfl).1
      { Comp.running with frameCountRef := 1 } (by decide),
   by decide⟩

/-- C9. `stopWebcam` on a stopped session (`streamRef.current` is null) stops no
track, touches no video element and changes no field; and after any
`stopWebcam` a second one finds the session stopped, so two calls in a row do
what one does, on every state. -/
theorem stopWebcam_idempotent (c : Comp) :
    (c.streamRef = none → stopWebcam c = (c, [])) ∧
    (stopWebcam c).1.streamRef = none ∧
    stopWebcam (stopWebcam c).1 = ((stopWebcam c).1, []) ∧
    (∀ s : Sys, step (step s .stopWebcam) .stopWebcam = step s .stopWebcam) := by
  have h1 : ∀ c : Comp, c.streamRef = none → stopWebcam c = (c, []) := by
    intro c hc
    simp [stopWebcam, hc]
  have h2 : ∀ c : Comp, (stopWebcam c).1.streamRef = none := by
    intro c
    unfold stopWebcam
    cases hs : c.streamRef with
    | none => simpa using hs
    | some stream => cases hv : c.videoRef <;> rfl
  refine ⟨h1 c, h2 c, h1 _ (h2 c), ?_⟩
  intro s
  cases hm : s.mounted
  · have hh : handle s .stopWebcam = s := by simp [handle, hm]
    simp [step, hh, hm]
  · have hh : handle s .stopWebcam =
        { s with comp := (stopWebcam s.comp).1, log := s.log ++ (stopWebcam s.comp).2 } := by
      simp [handle, hm]
    have hs1 : step s .stopWebcam =
        { s with comp := render (stopWebcam s.comp).1,
                 log := s.log ++ (stopWebcam s.comp).2 } := by
      simp [step, hh, hm]
    have hstop : stopWebcam (render (stopWebcam s.comp).1) =
        (render (stopWebcam s.comp).1, []) :=
      h1 _ (by rw [(render_fields _).2.2.2.2.1]; exact h2 _)
    rw [hs1]
    simp [step, handle, hm, hstop, render_render]

/-- C9 on a running session with two tracks: the first stop releases them, the
second does nothing. -/
theorem stopWebcam_idempotent_witness :
    stopWebcam { Comp.initial with streamRef := none } =
      ({ Comp.initial with streamRef := none }, []) ∧
    (stopWebcam { Comp.initial with streamRef := some ⟨1, [0, 1]⟩, isStreaming := true }).2 =
      [.trackStop 1 0, .trackStop 1 1] :=
  ⟨(stopWebcam_idempotent { Comp.initial with streamRef := none }).1 rfl, by decide⟩

/-- The requests of a concatenation. -/
theorem requests_append (a b : List Effect) : requests (a ++ b) = requests a ++ requests b := by
  simp [requests, List.filterMap_append]

/-- Capturing a frame issues no request. -/
theorem requests_capture (env : FrameEnv) : requests (capture env).1 = [] := by
  unfold capture
  rcases env.fault with _ | f
  · rfl
  · cases f <;> rfl

/-- The settlement of `processImage` either hands the state back or replaces
`detectionResult` and `detectionStats` together. -/
theorem processImageSettle_state (c : Comp) (o : FetchOutcome) :
    (processImageSettle c o).1 = c ∨
    ∃ d : Body, (processImageSettle c o).1 =
      { c with detectionResult := d.image, detectionStats := d.detections } := by
  unfold processImageSettle
  cases h : processImageTry c o with
  | error msg => exact Or.inl rfl
  | ok r =>
    rcases o with msg | ⟨ok, msg⟩ | ⟨ok, data⟩
    · simp [processImageTry] at h
    · simp [processImageTry] at h
    · cases data with
      | none => simp [processImageTry] at h
      | some d =>
        cases ok
        · simp [processImageTry] at h
        · cases hd : d.success
          · simp [processImageTry, hd] at h
          · simp [processImageTry, hd] at h
            exact Or.inr ⟨d, by rw [← h]⟩

/-- `stopWebcam` issues no request. -/
theorem requests_stopWebcam (c : Comp) : requests (stopWebcam c).2 = [] := by
  have hstops : ∀ (n : Nat) (l : List Nat), requests (l.map (Effect.trackStop n)) = [] := by
    intro n l
    induction l with
    | nil => rfl
    | cons a t ih => simp [requests]
  unfold stopWebcam
  cases hs : c.streamRef with
  | none => rfl
  | some stream =>
    cases hv : c.videoRef with
    | none => exact hstops _ _
    | some v =>
      simp only [requests_append, hstops]
      rfl

/-- Removing one occurrence lowers the count by one. -/
theorem count_eraseIdx_of_getElem {α : Type} [DecidableEq α] (l : List α) (i : Nat) (a : α)
    (h : l[i]? = some a) : (l.eraseIdx i).count a + 1 = l.count a := by
  induction l generalizing i with
  | nil => simp at h
  | cons b t ih =>
    cases i with
    | zero =>
      simp only [List.getElem?_cons_zero, Option.some.injEq] at h
      subst h
      simp
    | succ n =>
      simp only [List.getElem?_cons_succ] at h
      have := ih n h
      simp only [List.eraseIdx_cons_succ, List.count_cons]
      omega

/-- `stopWebcam` leaves `processingRef` alone. -/
theorem stopWebcam_processingRef (c : Comp) :
    (stopWebcam c).1.processingRef = c.processingRef := by
  unfold stopWebcam
  cases hs : c.streamRef with
  | none => rfl
  | some stream => cases hv : c.videoRef <;> rfl

/-- A tick that finds the flag down either settles with the flag down or puts
one request in flight with the flag up; a tick that finds it up does nothing. -/
theorem processWebcamFrame_flag (c : Comp) (env : FrameEnv) :
    (c.processingRef = true → (processWebcamFrame c env).1 = .settled c) ∧
    (∀ c', (processWebcamFrame c env).1 = .settled c' → c'.processingRef = c.processingRef) ∧
    (∀ c', (processWebcamFrame c env).1 = .waiting c' →
      c.processingRef = false ∧ c'.processingRef = true) := by
  cases hp : c.processingRef
  · refine ⟨fun h => Bool.noConfusion h, ?_, ?_⟩
    · intro c' hc
      cases hg : (c.videoRef.isNone || !c.isStreaming || c.processingRef)
      · cases hcap : (capture env).2
        · simp [processWebcamFrame, hg, hcap] at hc
          rw [← hc]
        · by_cases hr : env.readyState = HAVE_ENOUGH_DATA
          · cases hsub : processImageSubmit
                { c with frameCountRef := c.frameCountRef + 1, processingRef := true } env.now
            · simp [processWebcamFrame, hg, hcap, hr, hsub] at hc
              rw [← hc]
            · simp [processWebcamFrame, hg, hcap, hr, hsub] at hc
          · simp [processWebcamFrame, hg, hcap, hr] at hc
            rw [← hc]
            exact hp
      · simp [processWebcamFrame, hg] at hc
        rw [← hc]
        exact hp
    · intro c' hc
      refine ⟨rfl, ?_⟩
      cases hg : (c.videoRef.isNone || !c.isStreaming || c.processingRef)
      · cases hcap : (capture env).2
        · simp [processWebcamFrame, hg, hcap] at hc
        · by_cases hr : env.readyState = HAVE_ENOUGH_DATA
          · cases hsub : processImageSubmit
                { c with frameCountRef := c.frameCountRef + 1, processingRef := true } env.now
            · simp [processWebcamFrame, hg, hcap, hr, hsub] at hc
            · simp [processWebcamFrame, hg, hcap, hr, hsub] at hc
              rw [← hc]
              unfold processImageSubmit at hsub
              split at hsub
              · cases hsub
              · cases hsub; rfl
          · simp [processWebcamFrame, hg, hcap, hr] at hc
      · simp [processWebcamFrame, hg] at hc
  · have hs : (processWebcamFrame c env).1 = .settled c := by
      simp [processWebcamFrame, hp]
    refine ⟨fun _ => hs, ?_, ?_⟩
    · intro c' hc
      rw [hs] at hc
      cases hc
      exact hp
    · intro c' hc
      rw [hs] at hc
      cases hc

/-- What `stopWebcam` stops: each track of the stream stored in `streamRef`, as
often as the stream lists it. -/
theorem stopCount_stopWebcam (c : Comp) (stream : MediaStream) (t : Nat)
    (hs : c.streamRef = some stream) :
    stopCount (stopWebcam c).2 stream.id t = stream.tracks.count t := by
  have hstops : ∀ l : List Nat,
      (l.map (Effect.trackStop stream.id)).count (.trackStop stream.id t) = l.count t := by
    intro l
    induction l with
    | nil => rfl
    | cons a r ih =>
      by_cases hat : a = t
      · simp [List.count_cons, hat, ih]
      · simp [List.count_cons, hat, ih]
  unfold stopWebcam stopCount
  rw [hs]
  cases hv : c.videoRef with
  | none => exact hstops _
  | some v => simp [List.count_append, hstops]

/-- A counterexample to C8 as stated. On a tick that passes the entry guard of
`processWebcamFrame` while the video reports `HAVE_FUTURE_DATA` (640 x 480), the
frame is drawn and encoded and then not submitted; the same happens, on an
empty canvas, while the video reports `HAVE_NOTHING`; and it happens in every
state the entry guard lets through. -/
theorem encodes_when_not_ready :
    FrameEnv.futureData.readyState ≠ HAVE_ENOUGH_DATA ∧
    pastGuard Comp.running = true ∧
    (processWebcamFrame Comp.running FrameEnv.futureData).2 =
      [.createCanvas 640 480, .drawImage 640 480, .toDataURL "image/jpeg" ⟨8, -1⟩] ∧
    (processWebcamFrame Comp.running FrameEnv.notReady).2 =
      [.createCanvas 0 0, .drawImage 0 0, .toDataURL "image/jpeg" ⟨8, -1⟩] ∧
    (∀ c : Comp, pastGuard c = true →
      (processWebcamFrame c FrameEnv.futureData).2 =
        [.createCanvas 640 480, .drawImage 640 480, .toDataURL "image/jpeg" ⟨8, -1⟩]) := by
  refine ⟨by decide, by decide, by decide, by decide, ?_⟩
  intro c hc
  have hg : (c.videoRef.isNone || !c.isStreaming || c.processingRef) = false := by
    simp only [pastGuard, Bool.and_eq_true, Bool.not_eq_true'] at hc
    cases hv : c.videoRef with
    | none => simp [hv] at hc
    | some v => simp [hc.1.2, hc.2]
  simp [processWebcamFrame, hg, capture, FrameEnv.futureData, HAVE_ENOUGH_DATA]

/-- C8, amended. On every tick that passes the entry guard of `processWebcamFrame`
the canvas is sized to `videoWidth x videoHeight` and the frame is drawn and
encoded as JPEG at quality 0.8 whatever `readyState` is, up to the first of these
calls that throws, if one does; the exception is then logged and the tick ends.
`readyState == HAVE_ENOUGH_DATA` gates the submission only: a request is issued
exactly when nothing threw, the device is ready and the throttle lets the
(incremented) frame counter through; on a tick where the device is not ready
nothing is submitted and the call settles at once. -/
theorem processWebcamFrame_ready_gates_submission (c : Comp) (env : FrameEnv)
    (hc : pastGuard c = true) :
    (processWebcamFrame c env).2 =
      (match env.fault with
        | none =>
          [.createCanvas env.videoWidth env.videoHeight,
           .drawImage env.videoWidth env.videoHeight,
           .toDataURL "image/jpeg" ⟨8, -1⟩] ++
          (if env.readyState = HAVE_ENOUGH_DATA ∧
              throttled (c.frameCountRef + 1) env.now c.lastProcessedTimeRef = false
            then [.fetchPost env.encoded] else [])
        | some .noContext =>
          [.createCanvas env.videoWidth env.videoHeight,
           .consoleError "Error processing webcam frame:" "capture"]
        | some .drawImage =>
          [.createCanvas env.videoWidth env.videoHeight,
           .drawImage env.videoWidth env.videoHeight,
           .consoleError "Error processing webcam frame:" "capture"]
        | some .toDataURL =>
          [.createCanvas env.videoWidth env.videoHeight,
           .drawImage env.videoWidth env.videoHeight,
           .toDataURL "image/jpeg" ⟨8, -1⟩,
           .consoleError "Error processing webcam frame:" "capture"]) ∧
    requests (processWebcamFrame c env).2 =
      (if env.fault = none ∧ env.readyState = HAVE_ENOUGH_DATA ∧
          throttled (c.frameCountRef + 1) env.now c.lastProcessedTimeRef = false
        then [env.encoded] else []) ∧
    (env.readyState ≠ HAVE_ENOUGH_DATA →
      requests (processWebcamFrame c env).2 = [] ∧
      (processWebcamFrame c env).1 =
        .settled { c with frameCountRef := c.frameCountRef + 1, processingRef := false }) := by
  have hp : c.processingRef = false := by
    simp only [pastGuard, Bool.and_eq_true, Bool.not_eq_true'] at hc
    exact hc.2
  have hg : (c.videoRef.isNone || !c.isStreaming || c.processingRef) = false := by
    simp only [pastGuard, Bool.and_eq_true, Bool.not_eq_true'] at hc
    cases hv : c.videoRef with
    | none => simp [hv] at hc
    | some v => simp [hc.1.2, hc.2]
  have hcc : ({ c with frameCountRef := c.frameCountRef + 1 } : Comp) =
      { c with frameCountRef := c.frameCountRef + 1, processingRef := false } := by
    rw [← hp]
  cases hf : env.fault with
  | some f =>
    cases f <;>
      simp [processWebcamFrame, hg, capture, hf, requests]
  | none =>
    by_cases hr : env.readyState = HAVE_ENOUGH_DATA
    · cases ht : throttled (c.frameCountRef + 1) env.now c.lastProcessedTimeRef <;>
        simp [processWebcamFrame, hg, capture, hf, hr, processImageSubmit, ht, requests]
    · simp [processWebcamFrame, hg, capture, hf, hr, requests, hcc]

/-- The amended C8 on a tick past the entry guard whose video reports
`HAVE_FUTURE_DATA`: three canvas calls, no request, the call settled. -/
theorem processWebcamFrame_ready_gates_submission_witness :
    requests (processWebcamFrame Comp.running FrameEnv.futureData).2 = [] ∧
    (processWebcamFrame Comp.running FrameEnv.futureData).1 =
      .settled { Comp.running with frameCountRef := 1 } :=
  (processWebcamFrame_ready_gates_submission Comp.running FrameEnv.futureData rfl).2.2
    (by decide)

/-- A step is what the event runs, with the render committed on top. -/
theorem step_eq (s : Sys) (e : Event) :
    step s e = { handle s e with
      comp := if (handle s e).mounted then render (handle s e).comp else (handle s e).comp } := by
  unfold step
  generalize handle s e = t
  rcases t with ⟨c, m, infl, rd, acq, pl, lg⟩
  cases m <;> rfl

/-- What `stopWebcam` keeps. -/
theorem stopWebcam_fields (c : Comp) :
    (stopWebcam c).1.frameCountRef = c.frameCountRef ∧
    (stopWebcam c).1.lastProcessedTimeRef = c.lastProcessedTimeRef ∧
    (stopWebcam c).1.isLoading = c.isLoading ∧
    (stopWebcam c).1.processingRef = c.processingRef ∧
    (c.isStreaming = false → (stopWebcam c).1.isStreaming = false) ∧
    (c.videoRef = none → (stopWebcam c).1.videoRef = none) := by
  unfold stopWebcam
  cases hs : c.streamRef with
  | none => simp
  | some stream => cases hv : c.videoRef <;> simp

/-- While no session is running and none can come up, what an event runs leaves
things that way, leaves the frame counter where it is, and, when that counter
is not divisible by 3, sends nothing. -/
theorem handle_stopped (s : Sys) (e : Event) (h : Stopped s) :
    Stopped (handle s e) ∧
    (handle s e).comp.frameCountRef = s.comp.frameCountRef ∧
    (s.comp.frameCountRef % 3 ≠ 0 → requests (handle s e).log = requests s.log) := by
  obtain ⟨hs, hv, hp⟩ := h
  have same : ∀ s' : Sys, s'.comp = s.comp ∧ s'.playing = s.playing ∧ s'.log = s.log →
      Stopped s' ∧ s'.comp.frameCountRef = s.comp.frameCountRef ∧
      (s.comp.frameCountRef % 3 ≠ 0 → requests s'.log = requests s.log) := by
    intro s' hs'
    refine ⟨⟨?_, ?_, ?_⟩, ?_, fun _ => ?_⟩
    · rw [hs'.1]; exact hs
    · rw [hs'.1]; exact hv
    · rw [hs'.2.1]; exact hp
    · rw [hs'.1]
    · rw [hs'.2.2]
  cases e with
  | settle i o =>
    cases hi : s.inflight[i]? with
    | none => exact same _ (by simp [handle, hi])
    | some caller =>
      have hr := requests_processImageSettle s.comp o
      have hst := processImageSettle_state s.comp o
      cases caller
      · have hh : handle s (.settle i o) =
            { s with comp := (processWebcamFrameSettle s.comp o).1,
                     inflight := s.inflight.eraseIdx i,
                     log := s.log ++ (processWebcamFrameSettle s.comp o).2 } := by
          simp [handle, hi]
        rw [hh]
        simp only [processWebcamFrameSettle, requests_append, hr, List.append_nil]
        rcases hst with h | ⟨d, h⟩ <;>
          exact ⟨⟨by simp [h, hs], by simp [h, hv], hp⟩, by simp [h], by simp⟩
      · have hh : handle s (.settle i o) =
            { s with comp := (readerOnloadSettle s.comp o).1,
                     inflight := s.inflight.eraseIdx i,
                     log := s.log ++ (readerOnloadSettle s.comp o).2 } := by
          simp [handle, hi]
        rw [hh]
        simp only [readerOnloadSettle, requests_append, hr, List.append_nil]
        rcases hst with h | ⟨d, h⟩ <;>
          exact ⟨⟨by simp [h, hs], by simp [h, hv], hp⟩, by simp [h], by simp⟩
  | readerLoaded now dataUrl =>
    by_cases h0 : s.reading = 0
    · exact same _ (by simp [handle, h0])
    · cases ht : throttled s.comp.frameCountRef now s.comp.lastProcessedTimeRef
      · have hh : handle s (.readerLoaded now dataUrl) =
            { s with comp := { s.comp with lastProcessedTimeRef := now },
                     reading := s.reading - 1, inflight := s.inflight ++ [.upload],
                     log := s.log ++ [.fetchPost dataUrl] } := by
          simp [handle, h0, readerOnload, processImageSubmit, ht]
        rw [hh]
        refine ⟨⟨hs, hv, hp⟩, rfl, ?_⟩
        intro hk
        exact absurd ((throttled_eq_false_iff _ _ _).mp ht).1 hk
      · have hh : handle s (.readerLoaded now dataUrl) =
            { s with comp := { s.comp with isLoading := false },
                     reading := s.reading - 1 } := by
          simp [handle, h0, readerOnload, processImageSubmit, ht]
        rw [hh]
        exact ⟨⟨hs, hv, hp⟩, rfl, fun _ => rfl⟩
  | mediaSettled media =>
    by_cases h0 : s.acquiring = 0
    · exact same _ (by simp [handle, h0])
    · cases media with
      | error msg =>
        have hh : handle s (.mediaSettled (.error msg)) =
            { s with comp := startWebcamCatch s.comp msg, acquiring := s.acquiring - 1 } := by
          simp [handle, h0, startWebcamAcquired]
        rw [hh]
        exact ⟨⟨rfl, hv, hp⟩, rfl, fun _ => rfl⟩
      | ok stream =>
        have hh : handle s (.mediaSettled (.ok stream)) =
            { s with acquiring := s.acquiring - 1 } := by
          simp [handle, h0, startWebcamAcquired, hv]
        rw [hh]
        exact ⟨⟨hs, hv, hp⟩, rfl, fun _ => rfl⟩
  | playSettled i played => exact same _ (by simp [handle, hp])
  | handleFileChange file =>
    cases hm : s.mounted
    · exact same _ (by simp [handle, hm])
    · cases file with
      | none => exact same _ (by simp [handle, hm, handleFileChange])
      | some f =>
        have hh : handle s (.handleFileChange (some f)) =
            { s with comp := handleFileChange s.comp (some f) } := by
          simp [handle, hm]
        rw [hh]
        exact ⟨⟨hs, hv, hp⟩, rfl, fun _ => rfl⟩
  | resetUpload =>
    cases hc : (s.mounted && s.comp.selectedFile.isSome)
    · exact same _ (by simp only [handle, hc]; exact ⟨rfl, rfl, rfl⟩)
    · have hh : handle s .resetUpload = { s with comp := resetUpload s.comp } := by
        simp only [handle, hc]
        rfl
      rw [hh]
      exact ⟨⟨hs, hv, hp⟩, rfl, fun _ => rfl⟩
  | handleUpload =>
    cases hc : (s.mounted && s.comp.selectedFile.isSome && !s.comp.isLoading)
    · exact same _ (by simp only [handle, hc]; exact ⟨rfl, rfl, rfl⟩)
    · have hh : handle s .handleUpload =
          { s with comp := (handleUpload s.comp).1,
                   reading := s.reading + (handleUpload s.comp).2.length,
                   log := s.log ++ (handleUpload s.comp).2 } := by
        simp only [handle, hc]
        rfl
      rw [hh]
      cases hf : s.comp.selectedFile with
      | none => simp [handleUpload, hf, hs, hv, hp, Stopped.mk]
      | some f =>
        refine ⟨⟨?_, ?_, hp⟩, ?_, fun _ => ?_⟩ <;>
          simp [handleUpload, hf, hs, hv, requests_append, requests]
  | startWebcam =>
    cases hm : s.mounted
    · exact same _ (by simp [handle, hm])
    · have hf := stopWebcam_fields s.comp
      have hr := requests_stopWebcam s.comp
      have hh : handle s .startWebcam =
          { s with comp := (startWebcam s.comp).1, acquiring := s.acquiring + 1,
                   log := s.log ++ (startWebcam s.comp).2 } := by
        simp [handle, hm]
      rw [hh]
      cases hst : s.comp.streamRef.isSome
      · refine ⟨⟨?_, ?_, hp⟩, ?_, fun _ => ?_⟩ <;>
          simp [startWebcam, hst, hs, hv, requests_append, requests]
      · refine ⟨⟨?_, ?_, hp⟩, ?_, fun _ => ?_⟩
        · simpa [startWebcam, hst] using hf.2.2.2.2.1 hs
        · simpa [startWebcam, hst] using hf.2.2.2.2.2 hv
        · simpa [startWebcam, hst] using hf.1
        · have hg : requests [Effect.getUserMedia] = [] := rfl
          simp only [startWebcam, hst, if_true, requests_append, hr, hg, List.append_nil]
  | stopWebcam =>
    cases hm : s.mounted
    · exact same _ (by simp [handle, hm])
    · have hf := stopWebcam_fields s.comp
      have hr := requests_stopWebcam s.comp
      have hh : handle s .stopWebcam =
          { s with comp := (stopWebcam s.comp).1, log := s.log ++ (stopWebcam s.comp).2 } := by
        simp [handle, hm]
      rw [hh]
      exact ⟨⟨hf.2.2.2.2.1 hs, hf.2.2.2.2.2 hv, hp⟩, hf.1,
        fun _ => by simp only [requests_append, hr, List.append_nil]⟩
  | unmount =>
    cases hm : s.mounted
    · exact same _ (by simp [handle, hm])
    · have hf := stopWebcam_fields { s.comp with videoRef := none }
      have hr := requests_stopWebcam { s.comp with videoRef := none }
      have hh : handle s .unmount =
          { s with comp := (stopWebcam { s.comp with videoRef := none }).1, mounted := false,
                   log := s.log ++ (stopWebcam { s.comp with videoRef := none }).2 } := by
        simp [handle, hm]
      rw [hh]
      exact ⟨⟨hf.2.2.2.2.1 hs, hf.2.2.2.2.2 rfl, hp⟩, hf.1,
        fun _ => by simp only [requests_append, hr, List.append_nil]⟩
  | tick env =>
    cases hm : s.mounted
    · exact same _ (by simp [handle, hm])
    · exact same _ (by simp [handle, hm, processWebcamFrame, hs])

/-- The same for a whole step. -/
theorem step_stopped (s : Sys) (e : Event) (h : Stopped s) :
    Stopped (step s e) ∧
    (step s e).comp.frameCountRef = s.comp.frameCountRef ∧
    (s.comp.frameCountRef % 3 ≠ 0 → requests (step s e).log = requests s.log) := by
  obtain ⟨⟨h1, h2, h3⟩, hk, hr⟩ := handle_stopped s e h
  rw [step_eq]
  by_cases hm : (handle s e).mounted = true
  · simp only [hm, if_true]
    refine ⟨⟨?_, ?_, h3⟩, ?_, hr⟩
    · rw [(render_fields _).1]
      exact h1
    · rw [render_of_not_streaming _ h1]
    · rw [(render_fields _).2.2.1]
      exact hk
  · simp only [hm]
    exact ⟨⟨h1, h2, h3⟩, hk, hr⟩

/-- And for every sequence of events. -/
theorem run_stopped (es : List Event) (s : Sys) (h : Stopped s) :
    Stopped (run s es) ∧
    (run s es).comp.frameCountRef = s.comp.frameCountRef ∧
    (s.comp.frameCountRef % 3 ≠ 0 → requests (run s es).log = requests s.log) := by
  induction es generalizing s with
  | nil => exact ⟨h, rfl, fun _ => rfl⟩
  | cons e t ih =>
    have h1 := step_stopped s e h
    have h2 := ih (step s e) h1.1
    simp only [run, List.foldl_cons] at h2 ⊢
    refine ⟨h2.1, h2.2.1.trans h1.2.1, fun hk => ?_⟩
    exact (h2.2.2 (by rw [h1.2.1]; exact hk)).trans (h1.2.2 hk)

/-- What an event runs keeps the component idle. -/
theorem handle_idle (s : Sys) (e : Event) (h : Idle s) : Idle (handle s e) := by
  have hst := handle_stopped s e h.stopped
  obtain ⟨⟨hs, hv, hp⟩, hf, hc, hw, hser, hl⟩ := h
  suffices H : (handle s e).comp.processingRef = false ∧
      Caller.webcam ∉ (handle s e).inflight ∧
      (handle s e).inflight.length + (handle s e).reading ≤ 1 ∧
      ((handle s e).comp.isLoading = false →
        (handle s e).inflight = [] ∧ (handle s e).reading = 0) from
    ⟨hst.1, H.1, hst.2.1.trans hc, H.2.1, H.2.2.1, H.2.2.2⟩
  have keep : ∀ s' : Sys, s'.comp.processingRef = s.comp.processingRef ∧
      s'.comp.isLoading = s.comp.isLoading ∧ s'.inflight = s.inflight ∧
      s'.reading = s.reading →
      s'.comp.processingRef = false ∧ Caller.webcam ∉ s'.inflight ∧
      s'.inflight.length + s'.reading ≤ 1 ∧
      (s'.comp.isLoading = false → s'.inflight = [] ∧ s'.reading = 0) := by
    intro s' hs'
    rw [hs'.1, hs'.2.1, hs'.2.2.1, hs'.2.2.2]
    exact ⟨hf, hw, hser, hl⟩
  cases e with
  | settle i o =>
    cases hi : s.inflight[i]? with
    | none => exact keep _ (by simp [handle, hi])
    | some caller =>
      cases caller with
      | webcam => exact absurd (List.getElem?_mem hi) hw
      | upload =>
        have hlt : i < s.inflight.length := (List.getElem?_eq_some.mp hi).1
        have hlen := List.length_eraseIdx_of_lt hlt
        have hnil : s.inflight.eraseIdx i = [] := by
          apply List.eq_nil_of_length_eq_zero
          omega
        have hrd : s.reading = 0 := by omega
        have hh : handle s (.settle i o) =
            { s with comp := (readerOnloadSettle s.comp o).1,
                     inflight := s.inflight.eraseIdx i,
                     log := s.log ++ (readerOnloadSettle s.comp o).2 } := by
          simp [handle, hi]
        rw [hh]
        refine ⟨?_, ?_, ?_, ?_⟩
        · simp only [readerOnloadSettle]
          exact (processImageSettle_processingRef s.comp o).trans hf
        · simp [hnil]
        · simp [hnil, hrd]
        · intro _
          exact ⟨hnil, hrd⟩
  | readerLoaded now dataUrl =>
    by_cases h0 : s.reading = 0
    · exact keep _ (by simp [handle, h0])
    · have hrd : s.reading = 1 := by omega
      have hin : s.inflight = [] := by
        apply List.eq_nil_of_length_eq_zero
        omega
      have hload : s.comp.isLoading = true := by
        cases hx : s.comp.isLoading
        · exact absurd (hl hx).2 h0
        · rfl
      cases ht : throttled s.comp.frameCountRef now s.comp.lastProcessedTimeRef
      · have hh : handle s (.readerLoaded now dataUrl) =
            { s with comp := { s.comp with lastProcessedTimeRef := now },
                     reading := s.reading - 1, inflight := s.inflight ++ [.upload],
                     log := s.log ++ [.fetchPost dataUrl] } := by
          simp [handle, h0, readerOnload, processImageSubmit, ht]
        rw [hh]
        refine ⟨hf, ?_, ?_, ?_⟩
        · simp [hin]
        · simp [hin, hrd]
        · intro hx
          simp only at hx
          rw [hload] at hx
          cases hx
      · have hh : handle s (.readerLoaded now dataUrl) =
            { s with comp := { s.comp with isLoading := false },
                     reading := s.reading - 1 } := by
          simp [handle, h0, readerOnload, processImageSubmit, ht]
        rw [hh]
        refine ⟨hf, hw, ?_, ?_⟩
        · simp [hin, hrd]
        · intro _
          exact ⟨hin, by simp [hrd]⟩
  | mediaSettled media =>
    by_cases h0 : s.acquiring = 0
    · exact keep _ (by simp [handle, h0])
    · cases media with
      | error msg =>
        exact keep _ (by simp [handle, h0, startWebcamAcquired, startWebcamCatch])
      | ok stream => exact keep _ (by simp [handle, h0, startWebcamAcquired, hv])
  | playSettled i played => exact keep _ (by simp [handle, hp])
  | handleFileChange file =>
    cases hm : s.mounted
    · exact keep _ (by simp [handle, hm])
    · cases file <;> exact keep _ (by simp [handle, hm, handleFileChange])
  | resetUpload =>
    cases hcd : (s.mounted && s.comp.selectedFile.isSome)
    · exact keep _ (by simp only [handle, hcd]; exact ⟨rfl, rfl, rfl, rfl⟩)
    · exact keep _ (by simp only [handle, hcd]; exact ⟨rfl, rfl, rfl, rfl⟩)
  | handleUpload =>
    cases hcd : (s.mounted && s.comp.selectedFile.isSome && !s.comp.isLoading)
    · exact keep _ (by simp only [handle, hcd]; exact ⟨rfl, rfl, rfl, rfl⟩)
    · have hh : handle s .handleUpload =
          { s with comp := (handleUpload s.comp).1,
                   reading := s.reading + (handleUpload s.comp).2.length,
                   log := s.log ++ (handleUpload s.comp).2 } := by
        simp only [handle, hcd]
        rfl
      simp only [Bool.and_eq_true, Bool.not_eq_true'] at hcd
      obtain ⟨hin, hrd⟩ := hl hcd.2
      rw [hh]
      cases hsel : s.comp.selectedFile with
      | none => simp [hsel] at hcd
      | some f =>
        refine ⟨?_, ?_, ?_, ?_⟩
        · simpa [handleUpload, hsel] using hf
        · simpa using hw
        · simp [handleUpload, hsel, hin, hrd]
        · intro hx
          simp [handleUpload, hsel] at hx
  | startWebcam =>
    cases hm : s.mounted
    · exact keep _ (by simp [handle, hm])
    · have hfs := stopWebcam_fields s.comp
      cases hsr : s.comp.streamRef.isSome
      · exact keep _ (by simp [handle, hm, startWebcam, hsr])
      · exact keep _ (by simp [handle, hm, startWebcam, hsr, hfs.2.2.1, hfs.2.2.2.1])
  | stopWebcam =>
    cases hm : s.mounted
    · exact keep _ (by simp [handle, hm])
    · have hfs := stopWebcam_fields s.comp
      exact keep _ (by simp [handle, hm, hfs.2.2.1, hfs.2.2.2.1])
  | unmount =>
    cases hm : s.mounted
    · exact keep _ (by simp [handle, hm])
    · have hfs := stopWebcam_fields { s.comp with videoRef := none }
      exact keep _ (by simpa [handle, hm] using ⟨hfs.2.2.2.1, hfs.2.2.1⟩)
  | tick env =>
    cases hm : s.mounted
    · exact keep _ (by simp [handle, hm])
    · exact keep _ (by simp [handle, hm, processWebcamFrame, hs])

/-- Every step keeps the component idle. -/
theorem step_idle (s : Sys) (e : Event) (h : Idle s) : Idle (step s e) := by
  obtain ⟨⟨h1, h2, h3⟩, hf, hc, hw, hser, hl⟩ := handle_idle s e h
  rw [step_eq]
  by_cases hm : (handle s e).mounted = true
  · simp only [hm, if_true]
    have hr := render_fields (handle s e).comp
    refine ⟨⟨hr.1.trans h1, ?_, h3⟩, hr.2.1.trans hf, hr.2.2.1.trans hc, hw, hser, ?_⟩
    · rw [render_of_not_streaming _ h1]
    · intro hx
      exact hl (hr.2.2.2.2.2.1 ▸ hx)
  · simp only [hm]
    exact ⟨⟨h1, h2, h3⟩, hf, hc, hw, hser, hl⟩

/-- The component is idle in every state it reaches after mounting. -/
theorem run_idle (es : List Event) : Idle (run Sys.initial es) := by
  have key : ∀ (es : List Event) (s : Sys), Idle s → Idle (run s es) := by
    intro es
    induction es with
    | nil => exact fun s hs => hs
    | cons e t ih => exact fun s hs => ih (step s e) (step_idle s e hs)
  refine key es Sys.initial ⟨⟨rfl, rfl, rfl⟩, rfl, rfl, ?_, ?_, ?_⟩
  · simp [Sys.initial]
  · simp [Sys.initial]
  · intro _
    exact ⟨rfl, rfl⟩

/-- What an event runs keeps the capture loop single-flight, in every state. -/
theorem webcamSingleFlight_handle (s : Sys) (e : Event) (h : WebcamSingleFlight s) :
    WebcamSingleFlight (handle s e) := by
  have keep : ∀ s' : Sys, s'.inflight = s.inflight ∧
      s'.comp.processingRef = s.comp.processingRef → WebcamSingleFlight s' := by
    intro s' hs'
    exact ⟨hs'.1 ▸ h.atMostOne, fun hf => hs'.1 ▸ h.flagged (hs'.2 ▸ hf)⟩
  cases e with
  | settle i o =>
    cases hi : s.inflight[i]? with
    | none => exact keep _ (by simp [handle, hi])
    | some caller =>
      cases caller with
      | webcam =>
        have hcount := count_eraseIdx_of_getElem s.inflight i .webcam hi
        have hone := h.atMostOne
        have hzero : (s.inflight.eraseIdx i).count .webcam = 0 := by omega
        refine ⟨?_, ?_⟩
        · simp only [handle, hi]
          omega
        · intro _
          simp only [handle, hi]
          exact List.count_eq_zero.mp hzero
      | upload =>
        have hp : (readerOnloadSettle s.comp o).1.processingRef = s.comp.processingRef := by
          simp only [readerOnloadSettle]
          exact processImageSettle_processingRef s.comp o
        refine ⟨?_, ?_⟩
        · simp only [handle, hi]
          exact Nat.le_trans ((List.eraseIdx_sublist s.inflight i).count_le _) h.atMostOne
        · intro hf
          simp only [handle, hi] at hf ⊢
          exact fun hmem => h.flagged (hp ▸ hf) (List.mem_of_mem_eraseIdx hmem)
  | readerLoaded now dataUrl =>
    by_cases h0 : s.reading = 0
    · exact keep _ (by simp [handle, h0])
    · cases ht : throttled s.comp.frameCountRef now s.comp.lastProcessedTimeRef
      · have hh : handle s (.readerLoaded now dataUrl) =
            { s with comp := { s.comp with lastProcessedTimeRef := now },
                     reading := s.reading - 1, inflight := s.inflight ++ [.upload],
                     log := s.log ++ [.fetchPost dataUrl] } := by
          simp [handle, h0, readerOnload, processImageSubmit, ht]
        rw [hh]
        refine ⟨?_, ?_⟩
        · simpa [List.count_append] using h.atMostOne
        · intro hf
          simpa using h.flagged hf
      · exact keep _ (by simp [handle, h0, readerOnload, processImageSubmit, ht])
  | mediaSettled media =>
    by_cases h0 : s.acquiring = 0
    · exact keep _ (by simp [handle, h0])
    · cases media with
      | error msg =>
        exact keep _ (by simp [handle, h0, startWebcamAcquired, startWebcamCatch])
      | ok stream =>
        cases hv : s.comp.videoRef <;>
          exact keep _ (by simp [handle, h0, startWebcamAcquired, hv])
  | playSettled i played =>
    cases hi : s.playing[i]? with
    | none => exact keep _ (by simp [handle, hi])
    | some stream =>
      cases played <;>
        exact keep _ (by simp [handle, hi, startWebcamPlayed, startWebcamCatch])
  | handleFileChange file =>
    cases hm : s.mounted
    · exact keep _ (by simp [handle, hm])
    · cases file <;> exact keep _ (by simp [handle, hm, handleFileChange])
  | resetUpload =>
    cases hcd : (s.mounted && s.comp.selectedFile.isSome)
    · exact keep _ (by simp only [handle, hcd]; exact ⟨rfl, rfl⟩)
    · exact keep _ (by simp only [handle, hcd]; exact ⟨rfl, rfl⟩)
  | handleUpload =>
    cases hcd : (s.mounted && s.comp.selectedFile.isSome && !s.comp.isLoading)
    · exact keep _ (by simp only [handle, hcd]; exact ⟨rfl, rfl⟩)
    · have hh : handle s .handleUpload =
          { s with comp := (handleUpload s.comp).1,
                   reading := s.reading + (handleUpload s.comp).2.length,
                   log := s.log ++ (handleUpload s.comp).2 } := by
        simp only [handle, hcd]
        rfl
      rw [hh]
      cases hsel : s.comp.selectedFile <;>
        exact keep _ (by simp [handleUpload, hsel])
  | startWebcam =>
    cases hm : s.mounted
    · exact keep _ (by simp [handle, hm])
    · have hfs := stopWebcam_fields s.comp
      cases hsr : s.comp.streamRef.isSome
      · exact keep _ (by simp [handle, hm, startWebcam, hsr])
      · exact keep _ (by simp [handle, hm, startWebcam, hsr, hfs.2.2.2.1])
  | stopWebcam =>
    cases hm : s.mounted
    · exact keep _ (by simp [handle, hm])
    · have hfs := stopWebcam_fields s.comp
      exact keep _ (by simp [handle, hm, hfs.2.2.2.1])
  | unmount =>
    cases hm : s.mounted
    · exact keep _ (by simp [handle, hm])
    · have hfs := stopWebcam_fields { s.comp with videoRef := none }
      exact keep _ (by simpa [handle, hm] using hfs.2.2.2.1)
  | tick env =>
    cases hm : s.mounted
    · exact keep _ (by simp [handle, hm])
    · have hflag := processWebcamFrame_flag s.comp env
      cases hf : processWebcamFrame s.comp env with
      | mk fr eff =>
        cases fr with
        | settled c =>
          have hc := hflag.2.1 c (by rw [hf])
          exact keep _ (by simpa [handle, hm, hf] using hc)
        | waiting c =>
          have hc := hflag.2.2 c (by rw [hf])
          have hnot := h.flagged hc.1
          refine ⟨?_, ?_⟩
          · simp only [handle, hm, if_true, hf, List.count_append]
            have : s.inflight.count Caller.webcam = 0 := List.count_eq_zero.mpr hnot
            simp [this]
          · intro hfalse
            simp only [handle, hm, if_true, hf] at hfalse
            rw [hc.2] at hfalse
            cases hfalse

/-- Every sequence of events keeps the capture loop single-flight. -/
theorem webcamSingleFlight_run (es : List Event) (s : Sys) (h : WebcamSingleFlight s) :
    WebcamSingleFlight (run s es) := by
  induction es generalizing s with
  | nil => exact h
  | cons e t ih =>
    apply ih
    have hh := webcamSingleFlight_handle s e h
    rw [step_eq]
    exact ⟨hh.atMostOne, fun hf => hh.flagged (by
      by_cases hm : (handle s e).mounted = true
      · simp only [hm, if_true] at hf
        exact (render_fields _).2.1 ▸ hf
      · simpa only [hm] using hf)⟩

/-- C2. Single-flight. Over every sequence of events of the component from
mounting (clicks on enabled buttons, files read, calls of `startWebcam` and
`stopWebcam` and their settlements, ticks, responses, teardown) at most one
detection request is in flight. `processingRef` is never up in such a state and
no request of the capture loop is in flight, so no submit is ever made while
the flag is up; the uploads, which do not look at the flag, are kept apart by
`isLoading`. A call of `processWebcamFrame` that does find the flag up returns
without a request and without touching anything, in every state; and from every
state in which the capture loop has at most one request in flight, and none
while the flag is down, every sequence of events leads to such a state. -/
theorem single_flight (es : List Event) :
    (run Sys.initial es).inflight.length ≤ 1 ∧
    (run Sys.initial es).comp.processingRef = false ∧
    Caller.webcam ∉ (run Sys.initial es).inflight ∧
    (∀ (c : Comp) (env : FrameEnv),
      processWebcamFrame { c with processingRef := true } env =
        (.settled { c with processingRef := true }, [])) ∧
    (∀ s : Sys, WebcamSingleFlight s → WebcamSingleFlight (run s es)) := by
  have h := run_idle es
  refine ⟨?_, h.flagDown, h.noWebcam, ?_, fun s hs => webcamSingleFlight_run es s hs⟩
  · have := h.serial
    omega
  · intro c env
    simp [processWebcamFrame]

/-- C2 on `uploadTrace`: one upload is in flight, the second click found the
button disabled and the second `onload` had no reader behind it. -/
theorem single_flight_witness :
    (run Sys.initial uploadTrace).inflight = [.upload] ∧
    requests (run Sys.initial uploadTrace).log = ["data:face"] ∧
    (run Sys.initial uploadTrace).inflight.length ≤ 1 ∧
    WebcamSingleFlight (run Sys.initial uploadTrace) :=
  ⟨by decide, by decide, (single_flight uploadTrace).1,
   (single_flight uploadTrace).2.2.2.2 Sys.initial ⟨by decide, fun _ => by decide⟩⟩

/-- C10. An uploaded image goes through the throttle of `processImage` like a
webcam frame. A click on the enabled upload button followed by the `onload` of
the reader it started issues a request exactly when the frame counter is
divisible by 3 and 50 ms have passed since `lastProcessedTimeRef`; otherwise the
upload finishes with `isLoading` false and no request; either way `error`,
`detectionResult` and `detectionStats` are as they were. While no capture
session is running the frame counter stays where it is whatever happens, so
where it is not divisible by 3 no upload (nor anything else) issues a request
until a session starts again. -/
theorem upload_throttled (s : Sys) (f : String) (now : Int) (dataUrl : DataURL)
    (hm : s.mounted = true) (hsel : s.comp.selectedFile = some f)
    (hl : s.comp.isLoading = false) :
    requests (run s [.handleUpload, .readerLoaded now dataUrl]).log = requests s.log ++
      (if s.comp.frameCountRef % 3 = 0 ∧ now - s.comp.lastProcessedTimeRef ≥ 50
        then [dataUrl] else []) ∧
    (run s [.handleUpload, .readerLoaded now dataUrl]).inflight = s.inflight ++
      (if s.comp.frameCountRef % 3 = 0 ∧ now - s.comp.lastProcessedTimeRef ≥ 50
        then [.upload] else []) ∧
    (run s [.handleUpload, .readerLoaded now dataUrl]).comp.isLoading =
      (if s.comp.frameCountRef % 3 = 0 ∧ now - s.comp.lastProcessedTimeRef ≥ 50
        then true else false) ∧
    (run s [.handleUpload, .readerLoaded now dataUrl]).comp.error = s.comp.error ∧
    (run s [.handleUpload, .readerLoaded now dataUrl]).comp.detectionResult =
      s.comp.detectionResult ∧
    (run s [.handleUpload, .readerLoaded now dataUrl]).comp.detectionStats =
      s.comp.detectionStats ∧
    readerOnload s.comp now =
      (if s.comp.frameCountRef % 3 = 0 ∧ now - s.comp.lastProcessedTimeRef ≥ 50
        then .waiting { s.comp with lastProcessedTimeRef := now }
        else .finished { s.comp with isLoading := false }) ∧
    (∀ (t : Sys) (es : List Event), Stopped t →
      (run t es).comp.frameCountRef = t.comp.frameCountRef ∧
      (t.comp.frameCountRef % 3 ≠ 0 → requests (run t es).log = requests t.log)) := by
  have hg := throttled_eq_false_iff s.comp.frameCountRef now s.comp.lastProcessedTimeRef
  have h0 : handle s .handleUpload =
      { s with comp := { s.comp with isLoading := true },
               reading := s.reading + 1, log := s.log ++ [.readAsDataURL f] } := by
    simp [handle, hm, hsel, hl, handleUpload]
  have h1 : step s .handleUpload =
      { s with comp := render { s.comp with isLoading := true },
               reading := s.reading + 1, log := s.log ++ [.readAsDataURL f] } := by
    rw [step_eq, h0]
    simp [hm]
  have hrf := render_fields { s.comp with isLoading := true }
  have hread : readerOnload s.comp now =
      (if s.comp.frameCountRef % 3 = 0 ∧ now - s.comp.lastProcessedTimeRef ≥ 50
        then .waiting { s.comp with lastProcessedTimeRef := now }
        else .finished { s.comp with isLoading := false }) := by
    unfold readerOnload
    rw [processImageSubmit_eq]
    by_cases hG : s.comp.frameCountRef % 3 = 0 ∧ now - s.comp.lastProcessedTimeRef ≥ 50
    · simp only [if_pos hG]
    · simp only [if_neg hG]
  have hthr : throttled (render { s.comp with isLoading := true }).frameCountRef now
      (render { s.comp with isLoading := true }).lastProcessedTimeRef =
      throttled s.comp.frameCountRef now s.comp.lastProcessedTimeRef := by
    rw [hrf.2.2.1, hrf.2.2.2.1]
  have hlast : ∀ t : Sys, (∀ es : List Event, Stopped t →
      (run t es).comp.frameCountRef = t.comp.frameCountRef ∧
      (t.comp.frameCountRef % 3 ≠ 0 → requests (run t es).log = requests t.log)) :=
    fun t es ht => (run_stopped es t ht).2
  have hra : requests [Effect.readAsDataURL f] = [] := rfl
  have hrq : requests [Effect.fetchPost dataUrl] = [dataUrl] := rfl
  have hrun : run s [.handleUpload, .readerLoaded now dataUrl] =
      step (step s .handleUpload) (.readerLoaded now dataUrl) := rfl
  rw [hrun, h1]
  by_cases hG : s.comp.frameCountRef % 3 = 0 ∧ now - s.comp.lastProcessedTimeRef ≥ 50
  · have ht := hg.mpr hG
    rw [← hthr] at ht
    simp only [if_pos hG]
    have h2 : handle
          ({ s with comp := render { s.comp with isLoading := true },
                    reading := s.reading + 1, log := s.log ++ [.readAsDataURL f] } : Sys)
          (.readerLoaded now dataUrl) =
        { s with comp := { (render { s.comp with isLoading := true }) with
                           lastProcessedTimeRef := now },
                 reading := s.reading, inflight := s.inflight ++ [.upload],
                 log := s.log ++ [.readAsDataURL f] ++ [.fetchPost dataUrl] } := by
      simp [handle, readerOnload, processImageSubmit, ht]
    rw [step_eq, h2]
    have r1 := render_fields
      { (render { s.comp with isLoading := true }) with lastProcessedTimeRef := now }
    refine ⟨?_, ?_, ?_, ?_, ?_, ?_, hread.trans (if_pos hG), fun t es => hlast t es⟩
    · simp only [requests_append, hra, hrq, List.append_nil]
    · rfl
    · simp only [hm, if_true]
      exact r1.2.2.2.2.2.1.trans hrf.2.2.2.2.2.1
    · simp only [hm, if_true]
      exact r1.2.2.2.2.2.2.1.trans hrf.2.2.2.2.2.2.1
    · simp only [hm, if_true]
      exact r1.2.2.2.2.2.2.2.1.trans hrf.2.2.2.2.2.2.2.1
    · simp only [hm, if_true]
      exact r1.2.2.2.2.2.2.2.2.1.trans hrf.2.2.2.2.2.2.2.2.1
  · have ht : throttled (render { s.comp with isLoading := true }).frameCountRef now
        (render { s.comp with isLoading := true }).lastProcessedTimeRef = true := by
      rw [hthr]
      cases hx : throttled s.comp.frameCountRef now s.comp.lastProcessedTimeRef
      · exact absurd (hg.mp hx) hG
      · rfl
    simp only [if_neg hG]
    have h2 : handle
          ({ s with comp := render { s.comp with isLoading := true },
                    reading := s.reading + 1, log := s.log ++ [.readAsDataURL f] } : Sys)
          (.readerLoaded now dataUrl) =
        { s with comp := { (render { s.comp with isLoading := true }) with
                           isLoading := false },
                 reading := s.reading, log := s.log ++ [.readAsDataURL f] } := by
      simp [handle, readerOnload, processImageSubmit, ht]
    rw [step_eq, h2]
    have r1 := render_fields
      { (render { s.comp with isLoading := true }) with isLoading := false }
    refine ⟨?_, ?_, ?_, ?_, ?_, ?_, hread.trans (if_neg hG), fun t es => hlast t es⟩
    · simp only [requests_append, hra, List.append_nil]
    · simp
    · simp only [hm, if_true]
      exact r1.2.2.2.2.2.1
    · simp only [hm, if_true]
      exact r1.2.2.2.2.2.2.1.trans hrf.2.2.2.2.2.2.1
    · simp only [hm, if_true]
      exact r1.2.2.2.2.2.2.2.1.trans hrf.2.2.2.2.2.2.2.1
    · simp only [hm, if_true]
      exact r1.2.2.2.2.2.2.2.2.1.trans hrf.2.2.2.2.2.2.2.2.1

/-- C10 on the mounted component. A first file is uploaded at time 1000 and
sent; after the detector has answered, a second upload 20 ms later is dropped;
and the frame counter is still 0 after all of `uploadTrace`. -/
theorem upload_throttled_witness :
    requests (run (run Sys.initial [.handleFileChange (some "face.png")])
      [.handleUpload, .readerLoaded 1000 "data:face"]).log = ["data:face"] ∧
    requests (run (run Sys.initial firstUploadTrace)
      [.handleUpload, .readerLoaded 1020 "data:face"]).log = ["data:face"] ∧
    (run (run Sys.initial firstUploadTrace)
      [.handleUpload, .readerLoaded 1020 "data:face"]).comp.isLoading = false ∧
    (run Sys.initial uploadTrace).comp.frameCountRef = 0 :=
  ⟨(upload_throttled (run Sys.initial [.handleFileChange (some "face.png")]) "face.png" 1000
      "data:face" (by decide) (by decide) (by decide)).1.trans (by decide),
   (upload_throttled (run Sys.initial firstUploadTrace) "face.png" 1020 "data:face"
      (by decide) (by decide) (by decide)).1.trans (by decide),
   (upload_throttled (run Sys.initial firstUploadTrace) "face.png" 1020 "data:face"
      (by decide) (by decide) (by decide)).2.2.1.trans (by decide),
   ((upload_throttled (run Sys.initial firstUploadTrace) "face.png" 1020 "data:face"
      (by decide) (by decide) (by decide)).2.2.2.2.2.2.2 Sys.initial uploadTrace
      ⟨rfl, rfl, rfl⟩).1⟩

/-- The code at the failing input of C5: `startWebcam` is called on the freshly
mounted component, where no video element is attached; `getUserMedia` hands it
a stream, which is never stored in `streamRef`, and teardown stops none of its
tracks. -/
theorem acquired_stream_never_stopped :
    (run Sys.initial leakTrace).log = [.getUserMedia] ∧
    (run Sys.initial leakTrace).mounted = false ∧
    (run Sys.initial leakTrace).comp.streamRef = none ∧
    stopCount (run Sys.initial leakTrace).log 0 0 = 0 := by
  refine ⟨?_, ?_, ?_, ?_⟩ <;> decide

/-- The part of C5 the code does keep: a stream that made it into `streamRef`
is released by teardown, each of its tracks once, and `streamRef` is cleared so
that nothing releases it again. -/
theorem teardown_releases_stored_stream (s : Sys) (stream : MediaStream) (t : Nat)
    (hm : s.mounted = true) (hs : s.comp.streamRef = some stream) :
    stopCount (step s .unmount).log stream.id t =
      stopCount s.log stream.id t + stream.tracks.count t ∧
    (step s .unmount).comp.streamRef = none := by
  have hh : step s .unmount =
      { s with comp := (stopWebcam { s.comp with videoRef := none }).1, mounted := false,
               log := s.log ++ (stopWebcam { s.comp with videoRef := none }).2 } := by
    rw [step_eq]
    simp [handle, hm]
  rw [hh]
  constructor
  · have h := stopCount_stopWebcam { s.comp with videoRef := none } stream t hs
    simp only [stopCount] at h ⊢
    simp only [List.count_append, h]
  · simp [stopWebcam, hs]

end MaskDetection

namespace Web

/-- The code at the failing input of C6: the component is mounted and
`toggleStream` is clicked once. `start_stream` goes out on socket 0, the socket
of the idle render, which the commit of the new render disconnects at once; the
socket that is open while streaming, socket 1, never had `start_stream` emitted
on it. -/
theorem start_stream_on_replaced_socket :
    (run View.mount [.toggleStream]).wire =
      [.connect 0 false, .emit 0 .start_stream, .disconnect 0, .connect 1 true] ∧
    (run View.mount [.toggleStream]).isStreaming = true ∧
    (run View.mount [.toggleStream]).socketRef = some 1 ∧
    Wire.emit 1 .start_stream ∉ (run View.mount [.toggleStream]).wire := by
  refine ⟨?_, ?_, ?_, ?_⟩ <;> decide

/-- The shape of a click on `toggleStream` while idle. -/
theorem step_toggle_on (v : View) (s : Nat) (hm : v.mounted = true)
    (hs : v.socketRef = some s) (hst : v.isStreaming = false)
    (hes : v.effectStreaming = false) :
    step v .toggleStream =
      { v with isStreaming := true, socketRef := some v.created, created := v.created + 1,
               effectStreaming := true,
               wire := v.wire ++ [.emit s .start_stream, .disconnect s, .connect v.created true] } := by
  simp [step, hm, toggleStream, emit, hs, hst, hes, commit, effectCleanup, effectSetup]

/-- The shape of a click on `toggleStream` while streaming. -/
theorem step_toggle_off (v : View) (s : Nat) (hm : v.mounted = true)
    (hs : v.socketRef = some s) (hst : v.isStreaming = true)
    (hes : v.effectStreaming = true) :
    step v .toggleStream =
      { v with isStreaming := false, socketRef := some v.created, created := v.created + 1,
               effectStreaming := false,
               wire := v.wire ++ [.emit s .stop_stream, .emit s .stop_stream, .disconnect s,
                                  .connect v.created false] } := by
  simp [step, hm, toggleStream, emit, hs, hst, hes, commit, effectCleanup, effectSetup]

/-- The shape of a teardown. -/
theorem step_unmount (v : View) (s : Nat) (hm : v.mounted = true)
    (hs : v.socketRef = some s) :
    step v .unmount =
      { v with mounted := false,
               wire := v.wire ++ (if v.effectStreaming then [.emit s .stop_stream] else [])
                              ++ [.disconnect s] } := by
  simp [step, hm, hs, effectCleanup]

/-- The component satisfies the invariant right after mounting. -/
theorem inv_mount : Inv View.mount := by
  refine ⟨?_, ?_, ?_, ?_⟩
  · intro w hw
    simp [View.mount, effectSetup] at hw
    subst hw
    decide
  · intro _
    exact ⟨0, by decide⟩
  · intro s b b' h1 h2
    simp [View.mount, effectSetup] at h1 h2
    rw [h1.2, h2.2]
  · intro s h1
    simp [View.mount, effectSetup] at h1

/-- Emitting a signal other than `start_stream` on the open socket, and
changing cells other than `isStreaming`, keeps the invariant. -/
theorem inv_emit (v v' : View) (s : Nat) (signal : Signal) (h : Inv v) (hsig : signal ≠ .start_stream)
    (hm : v'.mounted = v.mounted) (hr : v'.socketRef = v.socketRef)
    (hc : v'.created = v.created) (he : v'.effectStreaming = v.effectStreaming)
    (hi : v'.isStreaming = v.isStreaming) (hw : v'.wire = v.wire ++ [.emit s signal])
    (hfresh : s < v.created) : Inv v' := by
  refine ⟨?_, ?_, ?_, ?_⟩
  · intro w hw'
    rw [hw, List.mem_append, List.mem_singleton] at hw'
    rw [hc]
    rcases hw' with h1 | h1
    · exact h.fresh w h1
    · subst h1
      exact hfresh
  · intro hm'
    obtain ⟨t, ht, htc, hte, hcon, hdis⟩ := h.current (hm ▸ hm')
    refine ⟨t, hr ▸ ht, hc ▸ htc, by rw [he, hi]; exact hte, ?_, ?_⟩
    · rw [hw, hi]
      exact List.mem_append_left _ hcon
    · rw [hw]
      simpa using hdis
  · intro t b b' h1 h2
    rw [hw] at h1 h2
    simp only [List.mem_append, List.mem_singleton, reduceCtorEq, or_false] at h1 h2
    exact h.once t b b' h1 h2
  · intro t h1
    rw [hw] at h1 ⊢
    simp only [List.mem_append, List.mem_singleton, reduceCtorEq, or_false] at h1
    have := h.unstarted t h1
    simp only [List.mem_append, List.mem_singleton, Wire.emit.injEq, not_or, not_and]
    exact ⟨this, fun _ hx => hsig hx.symm⟩

/-- Every event keeps the invariant. -/
theorem inv_step (v : View) (e : Event) (h : Inv v) : Inv (step v e) := by
  cases hm : v.mounted with
  | false =>
    have : step v e = v := by simp [step, hm]
    rw [this]
    exact h
  | true =>
    obtain ⟨s, hs, hc, hes, hcon, hdis⟩ := h.current hm
    have hlt : s < v.created := by omega
    cases e with
    | toggleDebug =>
      refine inv_emit v _ s .toggle_debug h (by decide) ?_ ?_ ?_ ?_ ?_ ?_ hlt <;>
        simp [step, hm, toggleDebug, emit, hs, commit, hes]
    | toggleCoordinator =>
      refine inv_emit v _ s .toggle_coordinator h (by decide) ?_ ?_ ?_ ?_ ?_ ?_ hlt <;>
        simp [step, hm, toggleCoordinator, emit, hs, commit, hes]
    | frameUpdate frame detections =>
      have hst : step v (.frameUpdate frame detections) = frameUpdate v frame detections := by
        cases hb : v.isStreaming
        · have he' : v.effectStreaming = false := hes.trans hb
          simp [step, hm, frameUpdate, commit, he', hb]
        · have he' : v.effectStreaming = true := hes.trans hb
          simp [step, hm, frameUpdate, commit, he', hb]
      rw [hst]
      cases hb : v.effectStreaming
      · simpa [frameUpdate, hb] using h
      · exact ⟨by simpa [frameUpdate, hb] using h.fresh,
          by simpa [frameUpdate, hb] using h.current,
          by simpa [frameUpdate, hb] using h.once,
          by simpa [frameUpdate, hb] using h.unstarted⟩
    | unmount =>
      rw [step_unmount v s hm hs]
      refine ⟨?_, ?_, ?_, ?_⟩
      · intro w hw
        simp only [List.mem_append, List.mem_singleton] at hw
        rcases hw with (h1 | h1) | h1
        · exact h.fresh w h1
        · split at h1
          · simp only [List.mem_singleton] at h1
            subst h1
            exact hlt
          · simp at h1
        · subst h1
          exact hlt
      · intro hf
        simp at hf
      · intro t b b' h1 h2
        have h1' : Wire.connect t b ∈ v.wire := by
          cases hb : v.effectStreaming <;> simpa [hb] using h1
        have h2' : Wire.connect t b' ∈ v.wire := by
          cases hb : v.effectStreaming <;> simpa [hb] using h2
        exact h.once t b b' h1' h2'
      · intro t h1
        have h1' : Wire.connect t true ∈ v.wire := by
          cases hb : v.effectStreaming <;> simpa [hb] using h1
        have := h.unstarted t h1'
        cases hb : v.effectStreaming <;> simpa [hb] using this
    | toggleStream =>
      have hnew : ∀ b, Wire.connect v.created b ∉ v.wire := by
        intro b hb
        have := h.fresh _ hb
        simp [Wire.socket] at this
      have hnewe : ∀ g, Wire.emit v.created g ∉ v.wire := by
        intro g hg
        have := h.fresh _ hg
        simp [Wire.socket] at this
      have hnewd : Wire.disconnect v.created ∉ v.wire := by
        intro hg
        have := h.fresh _ hg
        simp [Wire.socket] at this
      have hne : s ≠ v.created := by omega
      cases hst : v.isStreaming with
      | false =>
        rw [hst] at hes hcon
        rw [step_toggle_on v s hm hs hst hes]
        refine ⟨?_, ?_, ?_, ?_⟩
        · intro w hw
          simp only [List.mem_append, List.mem_cons, List.mem_singleton, List.not_mem_nil,
            or_false] at hw
          rcases hw with h1 | h1 | h1 | h1
          · exact Nat.lt_succ_of_lt (h.fresh w h1)
          · subst h1; exact Nat.lt_succ_of_lt hlt
          · subst h1; exact Nat.lt_succ_of_lt hlt
          · subst h1; exact Nat.lt_succ_self _
        · intro _
          refine ⟨v.created, rfl, rfl, rfl, by simp, ?_⟩
          simp only [List.mem_append, List.mem_cons, List.mem_singleton, reduceCtorEq,
            Wire.disconnect.injEq, List.not_mem_nil, or_false, false_or, not_or]
          exact ⟨hnewd, fun hx => hne hx.symm⟩
        · intro t b b' h1 h2
          simp only [List.mem_append, List.mem_cons, List.mem_singleton, reduceCtorEq,
            Wire.connect.injEq, List.not_mem_nil, or_false, false_or] at h1 h2
          rcases h1 with h1 | ⟨h1, h1b⟩ <;> rcases h2 with h2 | ⟨h2, h2b⟩
          · exact h.once t b b' h1 h2
          · subst h2; exact absurd h1 (hnew b)
          · subst h1; exact absurd h2 (hnew b')
          · rw [h1b, h2b]
        · intro t h1
          simp only [List.mem_append, List.mem_cons, List.mem_singleton, reduceCtorEq,
            Wire.connect.injEq, List.not_mem_nil, or_false, false_or, and_true] at h1
          simp only [List.mem_append, List.mem_cons, List.mem_singleton, reduceCtorEq,
            Wire.emit.injEq, List.not_mem_nil, or_false, and_true, not_or]
          rcases h1 with h1 | h1
          · refine ⟨h.unstarted t h1, ?_⟩
            intro hts
            subst hts
            have := h.once t true false h1 hcon
            simp at this
          · subst h1
            exact ⟨hnewe _, fun hx => hne hx.symm⟩
      | true =>
        rw [hst] at hes hcon
        rw [step_toggle_off v s hm hs hst hes]
        refine ⟨?_, ?_, ?_, ?_⟩
        · intro w hw
          simp only [List.mem_append, List.mem_cons, List.mem_singleton, List.not_mem_nil,
            or_false] at hw
          rcases hw with h1 | h1 | h1 | h1 | h1
          · exact Nat.lt_succ_of_lt (h.fresh w h1)
          · subst h1; exact Nat.lt_succ_of_lt hlt
          · subst h1; exact Nat.lt_succ_of_lt hlt
          · subst h1; exact Nat.lt_succ_of_lt hlt
          · subst h1; exact Nat.lt_succ_self _
        · intro _
          refine ⟨v.created, rfl, rfl, rfl, by simp, ?_⟩
          simp only [List.mem_append, List.mem_cons, List.mem_singleton, reduceCtorEq,
            Wire.disconnect.injEq, List.not_mem_nil, or_false, false_or, not_or]
          exact ⟨hnewd, fun hx => hne hx.symm⟩
        · intro t b b' h1 h2
          simp only [List.mem_append, List.mem_cons, List.mem_singleton, reduceCtorEq,
            Wire.connect.injEq, List.not_mem_nil, or_false, false_or] at h1 h2
          rcases h1 with h1 | ⟨h1, h1b⟩ <;> rcases h2 with h2 | ⟨h2, h2b⟩
          · exact h.once t b b' h1 h2
          · subst h2; exact absurd h1 (hnew b)
          · subst h1; exact absurd h2 (hnew b')
          · rw [h1b, h2b]
        · intro t h1
          simp only [List.mem_append, List.mem_cons, List.mem_singleton, reduceCtorEq,
            Wire.connect.injEq, List.not_mem_nil, or_false, false_or, Bool.true_eq_false,
            and_false] at h1
          simp only [List.mem_append, List.mem_cons, List.mem_singleton, reduceCtorEq,
            Wire.emit.injEq, List.not_mem_nil, or_false, and_false, not_or, not_false_eq_true,
            and_true]
          exact h.unstarted t h1

/-- Every state reached from mounting satisfies the invariant. -/
theorem inv_run (es : List Event) (v : View) (h : Inv v) : Inv (run v es) := by
  induction es generalizing v with
  | nil => exact h
  | cons e t ih => exact ih (step v e) (inv_step v e h)

/-- A socket that was never disconnected satisfies `StopsFirst`. -/
theorem stopsFirst_of_not_mem (w : List Wire) (s : Nat) (h : Wire.disconnect s ∉ w) :
    StopsFirst w s := by
  intro pre post hw
  exact absurd (by rw [hw]; simp) h

/-- `StopsFirst` survives an extension of the wire in which every disconnect of
`s` is again preceded by a `stop_stream` on `s`. -/
theorem stopsFirst_append (w added : List Wire) (s : Nat) (h : StopsFirst w s)
    (hadd : ∀ pre post, added = pre ++ Wire.disconnect s :: post →
      Wire.emit s .stop_stream ∈ w ++ pre) :
    StopsFirst (w ++ added) s := by
  intro pre post hw
  rcases List.append_eq_append_iff.mp hw with ⟨a', hpre, hadded⟩ | ⟨c', hwc, hrest⟩
  · rw [hpre]
    exact hadd a' post hadded
  · cases c' with
    | nil =>
      simp only [List.nil_append] at hrest
      simp only [List.append_nil] at hwc
      have := hadd [] post hrest.symm
      simpa [hwc] using this
    | cons x c'' =>
      simp only [List.cons_append, List.cons.injEq] at hrest
      rw [← hrest.1] at hwc
      exact h pre c'' hwc

/-- Every event keeps `StopsFirst` for the sockets of streaming renders. -/
theorem stopsFirst_step (v : View) (e : Event) (h : Inv v)
    (hsf : ∀ s, Wire.connect s true ∈ v.wire → StopsFirst v.wire s) :
    ∀ s, Wire.connect s true ∈ (step v e).wire → StopsFirst (step v e).wire s := by
  cases hm : v.mounted with
  | false =>
    have : step v e = v := by simp [step, hm]
    rw [this]
    exact hsf
  | true =>
    obtain ⟨s, hs, hc, hes, hcon, hdis⟩ := h.current hm
    have emitOnly : ∀ (g : Signal), (step v e).wire = v.wire ++ [.emit s g] →
        ∀ t, Wire.connect t true ∈ (step v e).wire → StopsFirst (step v e).wire t := by
      intro g hw t ht
      rw [hw] at ht ⊢
      have ht' : Wire.connect t true ∈ v.wire := by simpa using ht
      refine stopsFirst_append _ _ t (hsf t ht') ?_
      intro pre post hp
      have : Wire.disconnect t ∈ [Wire.emit s g] := by rw [hp]; simp
      simp at this
    have hnewd : Wire.disconnect v.created ∉ v.wire := by
      intro hg
      have := h.fresh _ hg
      simp [Wire.socket] at this
    have hnew : ∀ b, Wire.connect v.created b ∉ v.wire := by
      intro b hb
      have := h.fresh _ hb
      simp [Wire.socket] at this
    cases e with
    | toggleDebug =>
      exact emitOnly .toggle_debug (by simp [step, hm, toggleDebug, emit, hs, commit, hes])
    | toggleCoordinator =>
      exact emitOnly .toggle_coordinator
        (by simp [step, hm, toggleCoordinator, emit, hs, commit, hes])
    | frameUpdate frame detections =>
      have hw : (step v (.frameUpdate frame detections)).wire = v.wire := by
        cases hb : v.isStreaming
        · have he' : v.effectStreaming = false := hes.trans hb
          simp [step, hm, frameUpdate, commit, he', hb]
        · have he' : v.effectStreaming = true := hes.trans hb
          simp [step, hm, frameUpdate, commit, he', hb]
      rw [hw]
      exact hsf
    | unmount =>
      rw [step_unmount v s hm hs]
      intro t ht
      have ht' : Wire.connect t true ∈ v.wire := by
        cases hb : v.effectStreaming <;> simpa [hb] using ht
      simp only [List.append_assoc]
      refine stopsFirst_append _ _ t (hsf t ht') ?_
      intro pre post hp
      cases hb : v.effectStreaming with
      | false =>
        simp only [hb, Bool.false_eq_true, if_false, List.nil_append] at hp
        have hmem : Wire.disconnect t ∈ [Wire.disconnect s] := by rw [hp]; simp
        simp only [List.mem_singleton, Wire.disconnect.injEq] at hmem
        subst hmem
        rw [← hes, hb] at hcon
        have := h.once t true false ht' hcon
        simp at this
      | true =>
        simp only [hb, if_true, List.singleton_append] at hp
        have hmem : Wire.disconnect t ∈ [Wire.emit s .stop_stream, Wire.disconnect s] := by
          rw [hp]; simp
        simp only [List.mem_cons, reduceCtorEq, Wire.disconnect.injEq, List.mem_singleton,
          List.not_mem_nil, or_false, false_or] at hmem
        subst hmem
        cases pre with
        | nil => simp at hp
        | cons x pre' =>
          simp only [List.cons_append, List.cons.injEq] at hp
          rw [← hp.1]
          simp
    | toggleStream =>
      cases hst : v.isStreaming with
      | false =>
        rw [hst] at hes hcon
        rw [step_toggle_on v s hm hs hst hes]
        intro t ht
        simp only [List.mem_append, List.mem_cons, List.mem_singleton, reduceCtorEq,
          Wire.connect.injEq, List.not_mem_nil, or_false, false_or, and_true] at ht
        have hbase : StopsFirst v.wire t := by
          rcases ht with ht | ht
          · exact hsf t ht
          · subst ht
            exact stopsFirst_of_not_mem _ _ hnewd
        refine stopsFirst_append _ _ t hbase ?_
        intro pre post hp
        have hmem : Wire.disconnect t ∈
            [Wire.emit s .start_stream, Wire.disconnect s, Wire.connect v.created true] := by
          rw [hp]; simp
        simp only [List.mem_cons, reduceCtorEq, Wire.disconnect.injEq, List.mem_singleton,
          List.not_mem_nil, or_false, false_or] at hmem
        subst hmem
        rcases ht with ht | ht
        · have := h.once t true false ht hcon
          simp at this
        · omega
      | true =>
        rw [hst] at hes hcon
        rw [step_toggle_off v s hm hs hst hes]
        intro t ht
        simp only [List.mem_append, List.mem_cons, List.mem_singleton, reduceCtorEq,
          Wire.connect.injEq, List.not_mem_nil, or_false, false_or, Bool.true_eq_false,
          and_false] at ht
        refine stopsFirst_append _ _ t (hsf t ht) ?_
        intro pre post hp
        have hmem : Wire.disconnect t ∈
            [Wire.emit s .stop_stream, Wire.emit s .stop_stream, Wire.disconnect s,
             Wire.connect v.created false] := by
          rw [hp]; simp
        simp only [List.mem_cons, reduceCtorEq, Wire.disconnect.injEq, List.mem_singleton,
          List.not_mem_nil, or_false, false_or] at hmem
        subst hmem
        cases pre with
        | nil => simp at hp
        | cons x pre' =>
          simp only [List.cons_append, List.cons.injEq] at hp
          rw [← hp.1]
          simp

/-- In every state reached from mounting, every socket of a streaming render
satisfies `StopsFirst`. -/
theorem stopsFirst_run (es : List Event) (s : Nat)
    (h : Wire.connect s true ∈ (run View.mount es).wire) :
    StopsFirst (run View.mount es).wire s := by
  have key : ∀ (es : List Event) (v : View), Inv v →
      (∀ s, Wire.connect s true ∈ v.wire → StopsFirst v.wire s) →
      ∀ s, Wire.connect s true ∈ (run v es).wire → StopsFirst (run v es).wire s := by
    intro es
    induction es with
    | nil => exact fun v _ hsf => hsf
    | cons e t ih =>
      exact fun v hv hsf => ih (step v e) (inv_step v e hv) (stopsFirst_step v e hv hsf)
  refine key es View.mount inv_mount ?_ s h
  intro t ht
  simp [View.mount, effectSetup] at ht

/-- In every state reached from mounting, a socket whose handlers were
registered by a streaming render never had `start_stream` emitted on it: the
failure of C6 is not particular to the first click. -/
theorem streaming_socket_never_started (es : List Event) (s : Nat)
    (h : Wire.connect s true ∈ (run View.mount es).wire) :
    Wire.emit s .start_stream ∉ (run View.mount es).wire :=
  (inv_run es View.mount inv_mount).unstarted s h

/-- C7. Over every sequence of events from mounting: (1) on the wire, each
disconnect of a socket whose handlers were registered by a streaming render is
preceded by a `stop_stream` emitted on that socket; (2) in a state in which the
component is streaming, the open socket `s` is such a socket and is still
connected; leaving by `toggleStream` puts on the wire `stop_stream` on `s`
(twice: once from the handler, once from the cleanup) and only then the
disconnect of `s`, and leaving by teardown puts on the wire `stop_stream` on `s`
and then the disconnect of `s`. -/
theorem stop_before_disconnect (es : List Event) :
    (∀ s pre post, Wire.connect s true ∈ (run View.mount es).wire →
      (run View.mount es).wire = pre ++ Wire.disconnect s :: post →
      Wire.emit s .stop_stream ∈ pre) ∧
    ((run View.mount es).mounted = true → (run View.mount es).isStreaming = true →
      ∃ s, (run View.mount es).socketRef = some s ∧
        Wire.connect s true ∈ (run View.mount es).wire ∧
        Wire.disconnect s ∉ (run View.mount es).wire ∧
        (step (run View.mount es) .toggleStream).wire =
          (run View.mount es).wire ++
            [.emit s .stop_stream, .emit s .stop_stream, .disconnect s,
             .connect (s + 1) false] ∧
        (step (run View.mount es) .toggleStream).isStreaming = false ∧
        (step (run View.mount es) .unmount).wire =
          (run View.mount es).wire ++ [.emit s .stop_stream, .disconnect s] ∧
        (step (run View.mount es) .unmount).mounted = false) := by
  refine ⟨fun s pre post hcon hw => stopsFirst_run es s hcon pre post hw, ?_⟩
  intro hm hst
  have h := inv_run es View.mount inv_mount
  obtain ⟨s, hs, hc, hes, hcon, hdis⟩ := h.current hm
  rw [hst] at hes hcon
  refine ⟨s, hs, hcon, hdis, ?_, ?_, ?_, ?_⟩
  · rw [step_toggle_off _ s hm hs hst hes, hc]
  · rw [step_toggle_off _ s hm hs hst hes]
  · rw [step_unmount _ s hm hs, hes]
    simp
  · rw [step_unmount _ s hm hs]

/-- C7 on two runs. After one click the component is streaming on socket 1 and
both ways out emit `stop_stream` on it before disconnecting it; after a click
and a teardown the disconnect of socket 1 has the `stop_stream` before it. -/
theorem stop_before_disconnect_witness :
    (∃ s, (run View.mount [.toggleStream]).socketRef = some s ∧
      Wire.connect s true ∈ (run View.mount [.toggleStream]).wire ∧
      Wire.disconnect s ∉ (run View.mount [.toggleStream]).wire ∧
      (step (run View.mount [.toggleStream]) .toggleStream).wire =
        (run View.mount [.toggleStream]).wire ++
          [.emit s .stop_stream, .emit s .stop_stream, .disconnect s, .connect (s + 1) false] ∧
      (step (run View.mount [.toggleStream]) .toggleStream).isStreaming = false ∧
      (step (run View.mount [.toggleStream]) .unmount).wire =
        (run View.mount [.toggleStream]).wire ++ [.emit s .stop_stream, .disconnect s] ∧
      (step (run View.mount [.toggleStream]) .unmount).mounted = false) ∧
    Wire.emit 1 .stop_stream ∈
      [Wire.connect 0 false, .emit 0 .start_stream, .disconnect 0, .connect 1 true,
       .emit 1 .stop_stream] :=
  ⟨(stop_before_disconnect [.toggleStream]).2 (by decide) (by decide),
   (stop_before_disconnect [.toggleStream, .unmount]).1 1
      [.connect 0 false, .emit 0 .start_stream, .disconnect 0, .connect 1 true,
       .emit 1 .stop_stream] [] (by decide) (by decide)⟩

end Web
